import Mathlib

/-
  Verification development for the sparkx-admin single-page application.

  The repository is TypeScript; the definitions below are a shallow embedding
  of its pure logic.  Browser primitives (fetch, crypto.subtle, JSON.parse,
  parseInt, string trimming) are modelled explicitly: JSON.parse by an
  executable recursive-descent parser, parseInt and trim by executable
  functions over character lists, crypto.subtle.digest by an executable
  SHA-256, and a fetch call by a value describing its outcome (a response or
  a thrown value).  React state updates are represented by explicit traces.
-/

set_option maxRecDepth 8000

namespace SparkxAdmin

/-- Whitespace characters recognised by the model of JavaScript string
trimming and of JSON insignificant whitespace (the source only ever meets
ASCII whitespace). -/
def isJsWs (c : Char) : Bool := c = ' ' || c = '\t' || c = '\n' || c = '\r'

/-- Model of the JavaScript method trim on a character list. -/
def jsTrimList (cs : List Char) : List Char :=
  ((cs.dropWhile isJsWs).reverse.dropWhile isJsWs).reverse

/-- Model of the JavaScript method trim. -/
def jsTrim (s : String) : String := ⟨jsTrimList s.data⟩

/-- Digits value of a list of decimal digit characters. -/
def digitsToNat (cs : List Char) : Nat :=
  cs.foldl (fun a c => a * 10 + (c.toNat - 48)) 0

/-- Model of the JavaScript call parseInt(s, 10): skip leading whitespace,
read an optional sign and then a maximal run of decimal digits, ignoring any
trailing characters; the result is none (NaN) when no digit is found. -/
def jsParseInt (s : String) : Option Int :=
  let cs := s.data.dropWhile isJsWs
  let signAndRest : Int × List Char :=
    match cs with
    | '-' :: r => (-1, r)
    | '+' :: r => (1, r)
    | _ => (1, cs)
  let digits := signAndRest.2.takeWhile Char.isDigit
  if digits.isEmpty then none
  else some (signAndRest.1 * (digitsToNat digits : Int))

/-- The opening curly brace character, written by code point. -/
def braceOpen : Char := Char.ofNat 123

/-- The closing curly brace character, written by code point. -/
def braceClose : Char := Char.ofNat 125

/-- JSON values as produced by the model of JSON.parse.  Numbers keep their
raw source text: no claim of this development depends on numeric values
inside an error body. -/
inductive Json where
  | null : Json
  | bool (b : Bool) : Json
  | num (raw : String) : Json
  | str (s : String) : Json
  | arr (xs : List Json) : Json
  | obj (fields : List (String × Json)) : Json

/-- Value of a hexadecimal digit character, none when not a hex digit. -/
def hexDigitVal (c : Char) : Option Nat :=
  if '0' ≤ c ∧ c ≤ '9' then some (c.toNat - 48)
  else if 'a' ≤ c ∧ c ≤ 'f' then some (c.toNat - 87)
  else if 'A' ≤ c ∧ c ≤ 'F' then some (c.toNat - 55)
  else none

/-- Translation of a JSON string escape character to the escaped character. -/
def jsonEscapeChar (c : Char) : Option Char :=
  if c = '"' then some '"'
  else if c = '\\' then some '\\'
  else if c = '/' then some '/'
  else if c = 'b' then some (Char.ofNat 8)
  else if c = 'f' then some (Char.ofNat 12)
  else if c = 'n' then some '\n'
  else if c = 'r' then some '\r'
  else if c = 't' then some '\t'
  else none

/-- Parse the body of a JSON string literal (the opening quote already
consumed), returning the decoded characters and the rest of the input. -/
def parseJsonStringBody : Nat → List Char → Option (List Char × List Char)
  | 0, _ => none
  | _, [] => none
  | fuel + 1, c :: rest =>
    if c = '"' then some ([], rest)
    else if c = '\\' then
      match rest with
      | [] => none
      | e :: rest2 =>
        if e = 'u' then
          match rest2 with
          | h1 :: h2 :: h3 :: h4 :: rest3 =>
            match hexDigitVal h1, hexDigitVal h2, hexDigitVal h3, hexDigitVal h4 with
            | some v1, some v2, some v3, some v4 =>
              let code := ((v1 * 16 + v2) * 16 + v3) * 16 + v4
              match parseJsonStringBody fuel rest3 with
              | some (s, r) => some (Char.ofNat code :: s, r)
              | none => none
            | _, _, _, _ => none
          | _ => none
        else
          match jsonEscapeChar e with
          | some ch =>
            match parseJsonStringBody fuel rest2 with
            | some (s, r) => some (ch :: s, r)
            | none => none
          | none => none
    else if c.toNat < 32 then none
    else
      match parseJsonStringBody fuel rest with
      | some (s, r) => some (c :: s, r)
      | none => none

/-- Parse the digit run of a JSON number component. -/
def takeDigits (cs : List Char) : List Char × List Char :=
  (cs.takeWhile Char.isDigit, cs.dropWhile Char.isDigit)

/-- Parse a JSON number starting at the given input (grammar of JSON:
optional minus, integer part without leading zeros, optional fraction,
optional exponent), returning the consumed characters. -/
def parseJsonNumber (cs : List Char) : Option (List Char × List Char) :=
  let afterSign : List Char × List Char :=
    match cs with
    | '-' :: r => (['-'], r)
    | _ => ([], cs)
  let intPart := takeDigits afterSign.2
  match intPart.1 with
  | [] => none
  | d :: ds =>
    if d = '0' ∧ ds ≠ [] then none
    else
      let afterInt := intPart.2
      let fracState : Option (List Char × List Char) :=
        match afterInt with
        | '.' :: r =>
          match takeDigits r with
          | ([], _) => none
          | (fd, r2) => some ('.' :: fd, r2)
        | _ => some ([], afterInt)
      match fracState with
      | none => none
      | some (fracChars, afterFrac) =>
        let expState : Option (List Char × List Char) :=
          match afterFrac with
          | e :: r =>
            if e = 'e' ∨ e = 'E' then
              let signPart : List Char × List Char :=
                match r with
                | '+' :: r2 => (['+'], r2)
                | '-' :: r2 => (['-'], r2)
                | _ => ([], r)
              match takeDigits signPart.2 with
              | ([], _) => none
              | (ed, r3) => some (e :: signPart.1 ++ ed, r3)
            else some ([], afterFrac)
          | [] => some ([], afterFrac)
        match expState with
        | none => none
        | some (expChars, afterExp) =>
          some (afterSign.1 ++ intPart.1 ++ fracChars ++ expChars, afterExp)

mutual

/-- Parse one JSON value after skipping leading whitespace. -/
def parseJsonValue : Nat → List Char → Option (Json × List Char)
  | 0, _ => none
  | fuel + 1, cs =>
    match cs.dropWhile isJsWs with
    | [] => none
    | c :: rest =>
      if c = 'n' then
        match rest with
        | 'u' :: 'l' :: 'l' :: r => some (Json.null, r)
        | _ => none
      else if c = 't' then
        match rest with
        | 'r' :: 'u' :: 'e' :: r => some (Json.bool true, r)
        | _ => none
      else if c = 'f' then
        match rest with
        | 'a' :: 'l' :: 's' :: 'e' :: r => some (Json.bool false, r)
        | _ => none
      else if c = '"' then
        match parseJsonStringBody fuel rest with
        | some (s, r) => some (Json.str ⟨s⟩, r)
        | none => none
      else if c = '[' then
        match (rest.dropWhile isJsWs) with
        | ']' :: r => some (Json.arr [], r)
        | _ =>
          match parseJsonArrayItems fuel rest with
          | some (xs, r) => some (Json.arr xs, r)
          | none => none
      else if c = braceOpen then
        match (rest.dropWhile isJsWs) with
        | d :: r =>
          if d = braceClose then some (Json.obj [], r)
          else
            match parseJsonObjectMembers fuel rest with
            | some (fs, r2) => some (Json.obj fs, r2)
            | none => none
        | [] => none
      else
        match parseJsonNumber (c :: rest) with
        | some (raw, r) => some (Json.num ⟨raw⟩, r)
        | none => none

/-- Parse the items of a nonempty JSON array (the opening bracket already
consumed), including the closing bracket. -/
def parseJsonArrayItems : Nat → List Char → Option (List Json × List Char)
  | 0, _ => none
  | fuel + 1, cs =>
    match parseJsonValue fuel cs with
    | none => none
    | some (v, rest) =>
      match rest.dropWhile isJsWs with
      | ',' :: r =>
        match parseJsonArrayItems fuel r with
        | some (xs, r2) => some (v :: xs, r2)
        | none => none
      | ']' :: r => some ([v], r)
      | _ => none

/-- Parse the members of a nonempty JSON object (the opening brace already
consumed), including the closing brace. -/
def parseJsonObjectMembers : Nat → List Char → Option (List (String × Json) × List Char)
  | 0, _ => none
  | fuel + 1, cs =>
    match cs.dropWhile isJsWs with
    | '"' :: rest =>
      match parseJsonStringBody fuel rest with
      | none => none
      | some (key, rest2) =>
        match rest2.dropWhile isJsWs with
        | ':' :: rest3 =>
          match parseJsonValue fuel rest3 with
          | none => none
          | some (v, rest4) =>
            match rest4.dropWhile isJsWs with
            | ',' :: r =>
              match parseJsonObjectMembers fuel r with
              | some (fs, r2) => some ((⟨key⟩, v) :: fs, r2)
              | none => none
            | d :: r =>
              if d = braceClose then some ([(⟨key⟩, v)], r) else none
            | [] => none
        | _ => none
    | _ => none

end

/-- Model of the JavaScript call JSON.parse: parse one value and require
only whitespace after it; none models a thrown SyntaxError. -/
def jsonParse (s : String) : Option Json :=
  match parseJsonValue (s.data.length + 1) s.data with
  | some (j, rest) => if (rest.dropWhile isJsWs).isEmpty then some j else none
  | none => none

/-- Property access on a parsed JSON value, as a JavaScript member read on
the result of JSON.parse: defined only on objects, and a duplicated key
keeps its last occurrence (later literal members overwrite earlier ones). -/
def lookupLastField : List (String × Json) → String → Option Json
  | [], _ => none
  | (k, v) :: rest, key =>
    match lookupLastField rest key with
    | some r => some r
    | none => if k = key then some v else none

/-- Field read on a JSON value; none when the value is not an object or the
field is absent (in JavaScript both paths fall through the typeof check). -/
def jsField (j : Json) (key : String) : Option Json :=
  match j with
  | Json.obj fields => lookupLastField fields key
  | _ => none

/-- The check used by every error parser in the repository: the field is a
string whose trimmed form is nonempty; the untrimmed string is returned. -/
def nonBlankStrField (j : Json) (key : String) : Option String :=
  match jsField j key with
  | some (Json.str s) => if jsTrim s = "" then none else some s
  | _ => none

/-- Convenience composition of jsonParse with nonBlankStrField. -/
def extractField (text key : String) : Option String :=
  match jsonParse text with
  | some j => nonBlankStrField j key
  | none => none

/-
  Executable SHA-256 over byte lists, the model of the browser primitive
  crypto.subtle.digest with algorithm identifier SHA-256 as invoked by
  calculateFileHash in src/pages/SoftwareTemplatesPage.tsx.  The definitions
  follow FIPS 180-4; the two standard test vectors are checked below.
-/

/-- Reduction of a natural number to a 32-bit word. -/
def w32 (n : Nat) : Nat := n % 4294967296

/-- Right rotation of a 32-bit word by n positions. -/
def rotr32 (n x : Nat) : Nat := (x >>> n) ||| w32 (x <<< (32 - n))

/-- Big sigma zero of SHA-256. -/
def bsig0 (x : Nat) : Nat := rotr32 2 x ^^^ rotr32 13 x ^^^ rotr32 22 x

/-- Big sigma one of SHA-256. -/
def bsig1 (x : Nat) : Nat := rotr32 6 x ^^^ rotr32 11 x ^^^ rotr32 25 x

/-- Small sigma zero of SHA-256. -/
def ssig0 (x : Nat) : Nat := rotr32 7 x ^^^ rotr32 18 x ^^^ (x >>> 3)

/-- Small sigma one of SHA-256. -/
def ssig1 (x : Nat) : Nat := rotr32 17 x ^^^ rotr32 19 x ^^^ (x >>> 10)

/-- Choice function of SHA-256. -/
def chFun (x y z : Nat) : Nat := (x &&& y) ^^^ ((4294967295 ^^^ x) &&& z)

/-- Majority function of SHA-256. -/
def majFun (x y z : Nat) : Nat := (x &&& y) ^^^ (x &&& z) ^^^ (y &&& z)

/-- Round constants of SHA-256. -/
def sha256K : List Nat :=
  [1116352408, 1899447441, 3049323471, 3921009573, 961987163, 1508970993, 2453635748, 2870763221,
   3624381080, 310598401, 607225278, 1426881987, 1925078388, 2162078206, 2614888103, 3248222580,
   3835390401, 4022224774, 264347078, 604807628, 770255983, 1249150122, 1555081692, 1996064986,
   2554220882, 2821834349, 2952996808, 3210313671, 3336571891, 3584528711, 113926993, 338241895,
   666307205, 773529912, 1294757372, 1396182291, 1695183700, 1986661051, 2177026350, 2456956037,
   2730485921, 2820302411, 3259730800, 3345764771, 3516065817, 3600352804, 4094571909, 275423344,
   430227734, 506948616, 659060556, 883997877, 958139571, 1322822218, 1537002063, 1747873779,
   1955562222, 2024104815, 2227730452, 2361852424, 2428436474, 2756734187, 3204031479, 3329325298]

/-- Working state of the SHA-256 compression function. -/
structure Hash8 where
  a : Nat
  b : Nat
  c : Nat
  d : Nat
  e : Nat
  f : Nat
  g : Nat
  h : Nat
deriving DecidableEq

/-- Initial hash value of SHA-256. -/
def sha256H0 : Hash8 :=
  { a := 1779033703, b := 3144134277, c := 1013904242, d := 2773480762,
    e := 1359893119, f := 2600822924, g := 528734635, h := 1541459225 }

/-- One round of the SHA-256 compression function; kw is the 32-bit sum of
the round constant and the schedule word. -/
def sha256Round (st : Hash8) (kw : Nat) : Hash8 :=
  let t1 := w32 (st.h + bsig1 st.e + chFun st.e st.f st.g + kw)
  let t2 := w32 (bsig0 st.a + majFun st.a st.b st.c)
  { a := w32 (t1 + t2), b := st.a, c := st.b, d := st.c,
    e := w32 (st.d + t1), f := st.e, g := st.f, h := st.g }

/-- Big-endian bytes of a natural number, fixed width k. -/
def natToBytesBE : Nat → Nat → List Nat
  | 0, _ => []
  | k + 1, n => natToBytesBE k (n / 256) ++ [n % 256]

/-- Group a byte list into big-endian 32-bit words. -/
def bytesToWordsBE : List Nat → List Nat
  | b0 :: b1 :: b2 :: b3 :: rest =>
    (((b0 * 256 + b1) * 256 + b2) * 256 + b3) :: bytesToWordsBE rest
  | _ => []

/-- Extend a 16-word block to the 64-word message schedule; the fuel is the
number of words still to append. -/
def sha256Extend : Nat → List Nat → List Nat
  | 0, acc => acc
  | fuel + 1, acc =>
    let n := acc.length
    let w := w32 (acc.getD (n - 16) 0 + ssig0 (acc.getD (n - 15) 0) +
                  acc.getD (n - 7) 0 + ssig1 (acc.getD (n - 2) 0))
    sha256Extend fuel (acc ++ [w])

/-- Process one 64-byte block. -/
def sha256Block (hv : Hash8) (block : List Nat) : Hash8 :=
  let ws := sha256Extend 48 (bytesToWordsBE block)
  let kws := List.zipWith (fun k w => w32 (k + w)) sha256K ws
  let st := kws.foldl sha256Round hv
  { a := w32 (hv.a + st.a), b := w32 (hv.b + st.b), c := w32 (hv.c + st.c),
    d := w32 (hv.d + st.d), e := w32 (hv.e + st.e), f := w32 (hv.f + st.f),
    g := w32 (hv.g + st.g), h := w32 (hv.h + st.h) }

/-- SHA-256 padding: append the 0x80 byte, zeros to 56 mod 64, and the
bit length as an 8-byte big-endian integer. -/
def sha256Pad (msg : List Nat) : List Nat :=
  let L := msg.length
  msg ++ [128] ++ List.replicate ((119 - (L % 64)) % 64) 0 ++ natToBytesBE 8 (8 * L)

/-- Split a byte list into 64-byte chunks; the fuel bounds the recursion. -/
def chunks64 : Nat → List Nat → List (List Nat)
  | 0, _ => []
  | _, [] => []
  | fuel + 1, bs => bs.take 64 :: chunks64 fuel (bs.drop 64)

/-- The eight final state words as a list. -/
def hash8ToList (hv : Hash8) : List Nat :=
  [hv.a, hv.b, hv.c, hv.d, hv.e, hv.f, hv.g, hv.h]

/-- SHA-256 digest of a byte list, as a list of 32 bytes. -/
def sha256 (msg : List Nat) : List Nat :=
  let padded := sha256Pad msg
  let final := (chunks64 padded.length padded).foldl sha256Block sha256H0
  (hash8ToList final).flatMap (natToBytesBE 4)

/-- The sixteen lowercase hexadecimal digit characters. -/
def lowercaseHexDigits : List Char := "0123456789abcdef".data

/-- Lowercase hexadecimal digit character of a nibble value. -/
def hexDigitChar (n : Nat) : Char := lowercaseHexDigits.getD n '0'

/-- Model of the JavaScript call b.toString(16) for a byte value: one digit
below 16, otherwise two lowercase hexadecimal digits. -/
def jsNumToStringHex (b : Nat) : List Char :=
  if b < 16 then [hexDigitChar b] else [hexDigitChar (b / 16), hexDigitChar (b % 16)]

/-- Model of the JavaScript call padStart(2, the zero character). -/
def jsPadStart2 (cs : List Char) : List Char :=
  if cs.length ≥ 2 then cs else List.replicate (2 - cs.length) '0' ++ cs

/-- Hexadecimal encoding of one byte as the source writes it:
b.toString(16).padStart(2, the zero character). -/
def jsHexByte (b : Nat) : List Char := jsPadStart2 (jsNumToStringHex b)

/-- Model of calculateFileHash from src/pages/SoftwareTemplatesPage.tsx:
the SHA-256 digest of the file bytes, each byte written as two lowercase
hexadecimal digits and the pieces joined. -/
def calculateFileHash (bytes : List Nat) : String :=
  ⟨(sha256 bytes).flatMap jsHexByte⟩

/-- Validation of the embedding of SHA-256 on the first standard test
vector: the digest of the empty message. -/
theorem sha256_vector_empty :
    calculateFileHash [] =
      "e3b0c44298fc1c149afbf4c8996fb92427ae41e4649b934ca495991b7852b855" := by
  decide

/-- Validation of the embedding of SHA-256 on the second standard test
vector: the digest of the three bytes of the word abc. -/
theorem sha256_vector_abc :
    calculateFileHash [97, 98, 99] =
      "ba7816bf8f01cfea414140de5dae2223b00361a396177a9cb410ff61f20015ad" := by
  decide

/-
  The fetch layer.  A call of the browser function fetch (together with the
  later await of response.text() or response.json()) is modelled by a value
  describing its outcome: either a settled response, or a thrown value.  A
  thrown value is an Error carrying a message, or any other value.  The
  field jsonErrMessage of a response carries the message of the SyntaxError
  that response.json() raises when the body is not valid JSON (that message
  is chosen by the platform, so the model carries it as data).
-/

/-- A value thrown inside the try block of an API wrapper. -/
inductive JsThrown where
  | errorObj (message : String)
  | nonError
deriving DecidableEq

/-- A settled HTTP response as the wrappers consume it. -/
structure JsResponse where
  ok : Bool
  status : Nat
  statusText : String
  body : String
  jsonErrMessage : String
deriving DecidableEq

/-- Outcome of one fetch call. -/
inductive FetchOutcome where
  | response (r : JsResponse)
  | thrown (e : JsThrown)
deriving DecidableEq

/-- Result type of every API wrapper in the repository: the TypeScript
union of an ok record and an error record with a message. -/
inductive ApiResult (α : Type) where
  | ok (data : α)
  | err (message : String)
deriving DecidableEq

/-- Message of a caught thrown value, as every wrapper computes it:
the message field when the value is an Error, a fixed default otherwise. -/
def thrownMessage (dflt : String) : JsThrown → String
  | JsThrown.errorObj m => m
  | JsThrown.nonError => dflt

namespace LoginPage

/-- Model of parseApiErrorMessage from src/pages/LoginPage.tsx: empty body
gives the fixed failure text; otherwise a non-blank string field message of
the parsed JSON body wins, else a non-blank msg, else the trimmed body
text, else the fixed failure text. -/
def parseApiErrorMessage (text : String) : String :=
  if text = "" then "Request failed"
  else
    let fromJson : Option String :=
      match jsonParse text with
      | some j =>
        match nonBlankStrField j "message" with
        | some m => some m
        | none => nonBlankStrField j "msg"
      | none => none
    match fromJson with
    | some m => m
    | none => if jsTrim text = "" then "Request failed" else jsTrim text

/-- Model of adminLogin from src/pages/LoginPage.tsx.  The request inputs
do not influence how the outcome is decoded; the ok branch returns the
parsed JSON body. -/
def adminLogin (_username _password : String) (o : FetchOutcome) : ApiResult Json :=
  match o with
  | FetchOutcome.thrown e => ApiResult.err (thrownMessage "Request failed" e)
  | FetchOutcome.response r =>
    if !r.ok then ApiResult.err (parseApiErrorMessage r.body)
    else
      match jsonParse r.body with
      | some j => ApiResult.ok j
      | none => ApiResult.err r.jsonErrMessage

end LoginPage

namespace AgentManagementPage

/-- Model of parseApiErrorMessage from src/pages/AgentManagementPage.tsx;
its logic is the same as the login page variant. -/
def parseApiErrorMessage (text : String) : String :=
  if text = "" then "Request failed"
  else
    let fromJson : Option String :=
      match jsonParse text with
      | some j =>
        match nonBlankStrField j "message" with
        | some m => some m
        | none => nonBlankStrField j "msg"
      | none => none
    match fromJson with
    | some m => m
    | none => if jsTrim text = "" then "Request failed" else jsTrim text

end AgentManagementPage

namespace LlmManagementPage

/-- Model of parseApiErrorMessage from src/pages/LlmManagementPage.tsx.
This variant assigns extractedMessage from the field message and then
overwrites it when the field msg is also a non-blank string, so msg takes
priority over message when both are present. -/
def parseApiErrorMessage (text : String) : String :=
  if text = "" then "Request failed"
  else
    let extractedMessage : Option String :=
      match jsonParse text with
      | some j =>
        match nonBlankStrField j "msg" with
        | some m => some m
        | none => nonBlankStrField j "message"
      | none => none
    match extractedMessage with
    | some m => m
    | none => if jsTrim text = "" then "Request failed" else jsTrim text

end LlmManagementPage

namespace SoftwareTemplatesPage

/-- Model of parseApiErrorMessage from src/pages/SoftwareTemplatesPage.tsx;
its logic is the same as the login page variant. -/
def parseApiErrorMessage (text : String) : String :=
  if text = "" then "Request failed"
  else
    let fromJson : Option String :=
      match jsonParse text with
      | some j =>
        match nonBlankStrField j "message" with
        | some m => some m
        | none => nonBlankStrField j "msg"
      | none => none
    match fromJson with
    | some m => m
    | none => if jsTrim text = "" then "Request failed" else jsTrim text

/-- Request body of preUploadFile, mirroring its TypeScript input type. -/
structure PreUploadRequest where
  projectId : Int
  name : String
  fileCategory : String
  fileFormat : String
  sizeBytes : Nat
  hash : String
  contentType : Option String
deriving DecidableEq

/-- Model of preUploadFile from src/pages/SoftwareTemplatesPage.tsx. -/
def preUploadFile (_input : PreUploadRequest) (o : FetchOutcome) : ApiResult Json :=
  match o with
  | FetchOutcome.thrown e => ApiResult.err (thrownMessage "Request failed" e)
  | FetchOutcome.response r =>
    if !r.ok then ApiResult.err (parseApiErrorMessage r.body)
    else
      match jsonParse r.body with
      | some j => ApiResult.ok j
      | none => ApiResult.err r.jsonErrMessage

/-- Model of listFileVersions from src/pages/SoftwareTemplatesPage.tsx. -/
def listFileVersions (_fileId : Int) (_page _pageSize : Nat) (o : FetchOutcome) :
    ApiResult Json :=
  match o with
  | FetchOutcome.thrown e => ApiResult.err (thrownMessage "Request failed" e)
  | FetchOutcome.response r =>
    if !r.ok then ApiResult.err (parseApiErrorMessage r.body)
    else
      match jsonParse r.body with
      | some j => ApiResult.ok j
      | none => ApiResult.err r.jsonErrMessage

/-- Model of getDownloadUrl from src/pages/SoftwareTemplatesPage.tsx. -/
def getDownloadUrl (_fileId : Int) (_versionId _versionNumber : Option Int)
    (o : FetchOutcome) : ApiResult Json :=
  match o with
  | FetchOutcome.thrown e => ApiResult.err (thrownMessage "Request failed" e)
  | FetchOutcome.response r =>
    if !r.ok then ApiResult.err (parseApiErrorMessage r.body)
    else
      match jsonParse r.body with
      | some j => ApiResult.ok j
      | none => ApiResult.err r.jsonErrMessage

/-- Model of uploadFileToOSS from src/pages/SoftwareTemplatesPage.tsx: a
plain PUT whose failure message embeds the HTTP status and status text and
whose catch branch defaults to the upload failure text. -/
def uploadFileToOSS (_uploadUrl : String) (_file : List Nat) (_contentType : String)
    (o : FetchOutcome) : ApiResult Unit :=
  match o with
  | FetchOutcome.thrown e => ApiResult.err (thrownMessage "Upload failed" e)
  | FetchOutcome.response r =>
    if !r.ok then ApiResult.err ("上传失败: " ++ toString r.status ++ " " ++ r.statusText)
    else ApiResult.ok ()

/-- Model of listSoftwareTemplates from src/pages/SoftwareTemplatesPage.tsx. -/
def listSoftwareTemplates (_page _pageSize : Nat) (o : FetchOutcome) : ApiResult Json :=
  match o with
  | FetchOutcome.thrown e => ApiResult.err (thrownMessage "Request failed" e)
  | FetchOutcome.response r =>
    if !r.ok then ApiResult.err (parseApiErrorMessage r.body)
    else
      match jsonParse r.body with
      | some j => ApiResult.ok j
      | none => ApiResult.err r.jsonErrMessage

/-- Request body of createSoftwareTemplate: name always present, the other
fields optional. -/
structure CreateTemplateInput where
  name : String
  description : Option String
  archiveFileId : Option Int
deriving DecidableEq

/-- Request body of updateSoftwareTemplate: every field optional. -/
structure UpdateTemplateInput where
  name : Option String
  description : Option String
  archiveFileId : Option Int
deriving DecidableEq

/-- Model of createSoftwareTemplate from src/pages/SoftwareTemplatesPage.tsx. -/
def createSoftwareTemplate (_input : CreateTemplateInput) (o : FetchOutcome) :
    ApiResult Json :=
  match o with
  | FetchOutcome.thrown e => ApiResult.err (thrownMessage "Request failed" e)
  | FetchOutcome.response r =>
    if !r.ok then ApiResult.err (parseApiErrorMessage r.body)
    else
      match jsonParse r.body with
      | some j => ApiResult.ok j
      | none => ApiResult.err r.jsonErrMessage

/-- Model of updateSoftwareTemplate from src/pages/SoftwareTemplatesPage.tsx;
the ok branch does not read the response body. -/
def updateSoftwareTemplate (_id : Int) (_input : UpdateTemplateInput) (o : FetchOutcome) :
    ApiResult Unit :=
  match o with
  | FetchOutcome.thrown e => ApiResult.err (thrownMessage "Request failed" e)
  | FetchOutcome.response r =>
    if !r.ok then ApiResult.err (parseApiErrorMessage r.body)
    else ApiResult.ok ()

/-- Split a character list at every dot, as the JavaScript split method
does: the empty input yields one empty part, and separators at the ends
yield empty parts. -/
def splitOnDot : List Char → List (List Char)
  | [] => [[]]
  | c :: rest =>
    let r := splitOnDot rest
    if c = '.' then [] :: r
    else
      match r with
      | h :: t => (c :: h) :: t
      | [] => [[c]]

/-- Model of getFileExtension from src/pages/SoftwareTemplatesPage.tsx:
split the filename at dots and lowercase the last part, or return the
empty string when there is no dot. -/
def getFileExtension (filename : String) : String :=
  let parts := splitOnDot filename.data
  if parts.length > 1 then ⟨(parts.getLastD []).map Char.toLower⟩ else ""

/-- The image extension list of getFileCategory. -/
def imageExts : List String := ["png", "jpg", "jpeg", "gif", "bmp", "webp", "svg"]

/-- The video extension list of getFileCategory. -/
def videoExts : List String := ["mp4", "avi", "mov", "wmv", "flv", "mkv"]

/-- The audio extension list of getFileCategory. -/
def audioExts : List String := ["mp3", "wav", "ogg", "flac", "aac"]

/-- The text extension list of getFileCategory. -/
def textExts : List String :=
  ["txt", "md", "json", "xml", "html", "css", "js", "ts", "go", "py", "java", "c", "cpp", "h"]

/-- The archive extension list of getFileCategory. -/
def archiveExts : List String := ["zip", "rar", "7z", "tar", "gz", "bz2"]

/-- Model of getFileCategory from src/pages/SoftwareTemplatesPage.tsx. -/
def getFileCategory (ext : String) : String :=
  if imageExts.contains ext then "image"
  else if videoExts.contains ext then "video"
  else if audioExts.contains ext then "audio"
  else if textExts.contains ext then "text"
  else if archiveExts.contains ext then "archive"
  else "binary"

/-
  The workflow layer of the software-template page.  The two submit
  handlers run a linear sequence: hash the selected file, negotiate an
  upload slot (preUploadFile), PUT the bytes (uploadFileToOSS), then call
  the registrar (createSoftwareTemplate or updateSoftwareTemplate) and
  reload the template list.  Each network step is represented by its typed
  result as the TypeScript code consumes it after the cast of the JSON
  body; the environment record below supplies those results, and the
  handler returns a trace recording which calls were made, with which
  request bodies, together with the final banner message and the final
  selected template id.  An unused environment field corresponds to a call
  that was never made.
-/

/-- Severity of the banner message, from the Message interface. -/
inductive MsgType where
  | error
  | success
  | info
deriving DecidableEq

/-- A banner message, from the Message interface. -/
structure Message where
  type : MsgType
  text : String
deriving DecidableEq

/-- Typed pre-upload response, from the PreUploadResp interface. -/
structure PreUploadResp where
  uploadUrl : String
  fileId : Int
  versionId : Int
  versionNumber : Int
  contentType : String
deriving DecidableEq

/-- A template record, from the SoftwareTemplate interface. -/
structure SoftwareTemplate where
  id : Int
  name : String
  description : String
  archiveFileId : Int
  createdBy : Int
  createdAt : String
  updatedAt : String
deriving DecidableEq

/-- The form state of the page: name, description and the manually entered
archive file id, all strings. -/
structure FormData where
  name : String
  description : String
  archiveFileId : String
deriving DecidableEq

/-- The upload mode toggle of the form. -/
inductive UploadMode where
  | new
  | existing
deriving DecidableEq

/-- The selected local file: name, byte size, declared MIME type and
content bytes. -/
structure FileData where
  name : String
  size : Nat
  type : String
  bytes : List Nat
deriving DecidableEq

/-- Arguments of a performed OSS PUT call. -/
structure OssCall where
  uploadUrl : String
  contentType : String
deriving DecidableEq

/-- Typed results of the network steps the create flow may perform. -/
structure CreateEnv where
  hashThrows : Bool
  pre : ApiResult PreUploadResp
  oss : ApiResult Unit
  create : ApiResult SoftwareTemplate
  reload : ApiResult (List SoftwareTemplate)
deriving DecidableEq

/-- Trace of the create flow. -/
structure CreateTrace where
  preUploadCalled : Option PreUploadRequest
  ossUploadCalled : Option OssCall
  createCalled : Option CreateTemplateInput
  message : Option Message
  finalSelectedId : Option Int
deriving DecidableEq

/-- Typed results of the network steps the update flow may perform. -/
structure UpdateEnv where
  hashThrows : Bool
  pre : ApiResult PreUploadResp
  oss : ApiResult Unit
  update : ApiResult Unit
  reload : ApiResult (List SoftwareTemplate)
deriving DecidableEq

/-- Trace of the update flow; the registrar call records the template id
and the request body. -/
structure UpdateTrace where
  preUploadCalled : Option PreUploadRequest
  ossUploadCalled : Option OssCall
  updateCalled : Option (Int × UpdateTemplateInput)
  message : Option Message
  finalSelectedId : Option Int
deriving DecidableEq

/-- Selection step of loadTemplates from src/pages/SoftwareTemplatesPage.tsx:
keep the previously selected id when it is truthy and still present in the
refreshed list, otherwise fall back to the first element, otherwise to
nothing.  A previously selected id of zero is falsy in the source condition
and therefore ignored. -/
def loadTemplatesNextSelected (sel : Option Int) (L : List SoftwareTemplate) :
    Option SoftwareTemplate :=
  let found : Option SoftwareTemplate :=
    match sel with
    | some i => if i = 0 then none else L.find? (fun t => t.id == i)
    | none => none
  match found with
  | some t => some t
  | none => L.head?

/-- The archive file id taken from the manually entered form field in
existing mode: the trimmed field must be nonempty and parse to a strictly
positive integer, otherwise the id stays unset. -/
def existingModeArchiveFileId (form : FormData) (uploadMode : UploadMode) : Option Int :=
  if uploadMode = UploadMode.existing ∧ jsTrim form.archiveFileId ≠ "" then
    match jsParseInt (jsTrim form.archiveFileId) with
    | some v => if v > 0 then some v else none
    | none => none
  else none

/-- Registrar phase of the create flow: build the request body (blank
description omitted, falsy archive file id omitted), call the registrar,
and on success reload the list and recompute the selection.  The created
record returned by the registrar is not consulted. -/
def createRegistrarPhase (form : FormData) (sel0 : Option Int) (env : CreateEnv)
    (preCalled : Option PreUploadRequest) (ossCalled : Option OssCall)
    (archiveFileId : Option Int) : CreateTrace :=
  let input : CreateTemplateInput :=
    { name := jsTrim form.name,
      description := if jsTrim form.description = "" then none else some (jsTrim form.description),
      archiveFileId :=
        match archiveFileId with
        | some v => if v = 0 then none else some v
        | none => none }
  match env.create with
  | ApiResult.err m =>
    { preUploadCalled := preCalled, ossUploadCalled := ossCalled,
      createCalled := some input,
      message := some { type := MsgType.error, text := m },
      finalSelectedId := sel0 }
  | ApiResult.ok _ =>
    match env.reload with
    | ApiResult.err m =>
      { preUploadCalled := preCalled, ossUploadCalled := ossCalled,
        createCalled := some input,
        message := some { type := MsgType.error, text := m },
        finalSelectedId := sel0 }
    | ApiResult.ok L =>
      { preUploadCalled := preCalled, ossUploadCalled := ossCalled,
        createCalled := some input,
        message := some { type := MsgType.success, text := "模板创建成功！" },
        finalSelectedId := (loadTemplatesNextSelected sel0 L).map (fun t => t.id) }

/-- Model of handleUploadAndCreate from src/pages/SoftwareTemplatesPage.tsx. -/
def handleUploadAndCreate (form : FormData) (uploadMode : UploadMode)
    (selectedFile : Option FileData) (sel0 : Option Int) (env : CreateEnv) : CreateTrace :=
  if jsTrim form.name = "" then
    { preUploadCalled := none, ossUploadCalled := none, createCalled := none,
      message := some { type := MsgType.error, text := "模板名称不能为空" },
      finalSelectedId := sel0 }
  else
    match uploadMode, selectedFile with
    | UploadMode.new, some f =>
      if env.hashThrows then
        { preUploadCalled := none, ossUploadCalled := none, createCalled := none,
          message := some { type := MsgType.error, text := "文件上传过程中发生错误" },
          finalSelectedId := sel0 }
      else
        let fileHash := calculateFileHash f.bytes
        let ext := getFileExtension f.name
        let category := getFileCategory ext
        let preInput : PreUploadRequest :=
          { projectId := 0, name := f.name, fileCategory := category, fileFormat := ext,
            sizeBytes := f.size, hash := fileHash,
            contentType := if f.type = "" then none else some f.type }
        match env.pre with
        | ApiResult.err m =>
          { preUploadCalled := some preInput, ossUploadCalled := none, createCalled := none,
            message := some { type := MsgType.error, text := "预上传失败: " ++ m },
            finalSelectedId := sel0 }
        | ApiResult.ok data =>
          let ossCall : OssCall := { uploadUrl := data.uploadUrl, contentType := data.contentType }
          match env.oss with
          | ApiResult.err m =>
            { preUploadCalled := some preInput, ossUploadCalled := some ossCall,
              createCalled := none,
              message := some { type := MsgType.error, text := "上传失败: " ++ m },
              finalSelectedId := sel0 }
          | ApiResult.ok _ =>
            createRegistrarPhase form sel0 env (some preInput) (some ossCall) (some data.fileId)
    | _, _ =>
      createRegistrarPhase form sel0 env none none (existingModeArchiveFileId form uploadMode)

/-- Registrar phase of the update flow: build the request body with every
blank field omitted and a falsy archive file id omitted, call the
registrar for the edited template, and on success reload the list and
recompute the selection. -/
def updateRegistrarPhase (form : FormData) (tmplId : Int) (sel0 : Option Int) (env : UpdateEnv)
    (preCalled : Option PreUploadRequest) (ossCalled : Option OssCall)
    (archiveFileId : Option Int) : UpdateTrace :=
  let input : UpdateTemplateInput :=
    { name := if jsTrim form.name = "" then none else some (jsTrim form.name),
      description := if jsTrim form.description = "" then none else some (jsTrim form.description),
      archiveFileId :=
        match archiveFileId with
        | some v => if v = 0 then none else some v
        | none => none }
  match env.update with
  | ApiResult.err m =>
    { preUploadCalled := preCalled, ossUploadCalled := ossCalled,
      updateCalled := some (tmplId, input),
      message := some { type := MsgType.error, text := m },
      finalSelectedId := sel0 }
  | ApiResult.ok _ =>
    match env.reload with
    | ApiResult.err m =>
      { preUploadCalled := preCalled, ossUploadCalled := ossCalled,
        updateCalled := some (tmplId, input),
        message := some { type := MsgType.error, text := m },
        finalSelectedId := sel0 }
    | ApiResult.ok L =>
      { preUploadCalled := preCalled, ossUploadCalled := ossCalled,
        updateCalled := some (tmplId, input),
        message := some { type := MsgType.success, text := "模板更新成功！" },
        finalSelectedId := (loadTemplatesNextSelected sel0 L).map (fun t => t.id) }

/-- Model of handleUploadAndUpdate from src/pages/SoftwareTemplatesPage.tsx.
Without an editing template the handler returns silently. -/
def handleUploadAndUpdate (form : FormData) (uploadMode : UploadMode)
    (selectedFile : Option FileData) (editingTemplate : Option SoftwareTemplate)
    (sel0 : Option Int) (env : UpdateEnv) : UpdateTrace :=
  match editingTemplate with
  | none =>
    { preUploadCalled := none, ossUploadCalled := none, updateCalled := none,
      message := none, finalSelectedId := sel0 }
  | some tmpl =>
    match uploadMode, selectedFile with
    | UploadMode.new, some f =>
      if env.hashThrows then
        { preUploadCalled := none, ossUploadCalled := none, updateCalled := none,
          message := some { type := MsgType.error, text := "文件上传过程中发生错误" },
          finalSelectedId := sel0 }
      else
        let fileHash := calculateFileHash f.bytes
        let ext := getFileExtension f.name
        let category := getFileCategory ext
        let preInput : PreUploadRequest :=
          { projectId := 0, name := f.name, fileCategory := category, fileFormat := ext,
            sizeBytes := f.size, hash := fileHash,
            contentType := if f.type = "" then none else some f.type }
        match env.pre with
        | ApiResult.err m =>
          { preUploadCalled := some preInput, ossUploadCalled := none, updateCalled := none,
            message := some { type := MsgType.error, text := "预上传失败: " ++ m },
            finalSelectedId := sel0 }
        | ApiResult.ok data =>
          let ossCall : OssCall := { uploadUrl := data.uploadUrl, contentType := data.contentType }
          match env.oss with
          | ApiResult.err m =>
            { preUploadCalled := some preInput, ossUploadCalled := some ossCall,
              updateCalled := none,
              message := some { type := MsgType.error, text := "上传失败: " ++ m },
              finalSelectedId := sel0 }
          | ApiResult.ok _ =>
            updateRegistrarPhase form tmpl.id sel0 env (some preInput) (some ossCall)
              (some data.fileId)
    | _, _ =>
      updateRegistrarPhase form tmpl.id sel0 env none none
        (existingModeArchiveFileId form uploadMode)

end SoftwareTemplatesPage

namespace LlmManagementPage

/-- A provider record, from the LlmProvider interface. -/
structure LlmProvider where
  id : Int
  name : String
  baseUrl : String
  hasApiKey : Bool
  description : String
  createdAt : String
  updatedAt : String
deriving DecidableEq

/-- The provider edit form state. -/
structure ProviderForm where
  name : String
  baseUrl : String
  description : String
  apiKey : String
  clearApiKey : Bool
deriving DecidableEq

/-- Request body of updateLlmProvider: every field optional. -/
structure ProviderUpdatePayload where
  name : Option String
  baseUrl : Option String
  apiKey : Option String
  clearApiKey : Option Bool
  description : Option String
deriving DecidableEq

/-- Payload construction of the edit branch of submitProvider from
src/pages/LlmManagementPage.tsx: each field is added only when it differs
from the loaded record (the source compares the description against the
record value with an or-empty guard that is the identity on strings). -/
def submitProviderEditPayload (f : ProviderForm) (p : LlmProvider) : ProviderUpdatePayload :=
  { name := if jsTrim f.name ≠ "" ∧ jsTrim f.name ≠ p.name then some (jsTrim f.name) else none,
    baseUrl := if jsTrim f.baseUrl ≠ p.baseUrl then some (jsTrim f.baseUrl) else none,
    description :=
      if jsTrim f.description ≠ p.description then some (jsTrim f.description) else none,
    clearApiKey := if f.clearApiKey then some true else none,
    apiKey :=
      if f.clearApiKey then none
      else if jsTrim f.apiKey ≠ "" then some (jsTrim f.apiKey) else none }

/-- A model record, from the LlmModel interface.  Prices are rational in
the model (the source uses floating-point numbers; only equality and the
clamp at zero matter here). -/
structure LlmModel where
  id : Int
  providerId : Int
  modelName : String
  modelType : String
  maxInputTokens : Int
  maxOutputTokens : Int
  supportStream : Bool
  supportJson : Bool
  priceInputPer1k : ℚ
  priceOutputPer1k : ℚ
  createdAt : String
  updatedAt : String
deriving DecidableEq

/-- The model edit form state; numeric fields are entered as strings. -/
structure ModelForm where
  providerId : String
  modelName : String
  modelType : String
  maxInputTokens : String
  maxOutputTokens : String
  supportStream : Bool
  supportJson : Bool
  priceInputPer1k : String
  priceOutputPer1k : String
deriving DecidableEq

/-- Request body of updateLlmModel: every field optional. -/
structure ModelUpdatePayload where
  providerId : Option Int
  modelName : Option String
  modelType : Option String
  maxInputTokens : Option Int
  maxOutputTokens : Option Int
  supportStream : Option Bool
  supportJson : Option Bool
  priceInputPer1k : Option ℚ
  priceOutputPer1k : Option ℚ
deriving DecidableEq

/-- The token-count normalisation of submitModel: NaN becomes zero and
negative values are clamped at zero. -/
def clampTokens (v : Option Int) : Int :=
  match v with
  | none => 0
  | some x => max 0 x

/-- The price normalisation of submitModel: NaN becomes zero and negative
values are clamped at zero. -/
def clampPrice (v : Option ℚ) : ℚ :=
  match v with
  | none => 0
  | some x => max 0 x

/-- Payload construction of the edit branch of submitModel from
src/pages/LlmManagementPage.tsx.  The results of the two parseFloat calls
are taken as inputs (none models NaN); none as a whole models the early
returns on an invalid provider id or a blank model name. -/
def submitModelEditPayload (f : ModelForm) (priceIn priceOut : Option ℚ) (m : LlmModel) :
    Option ModelUpdatePayload :=
  match jsParseInt f.providerId with
  | none => none
  | some providerId =>
    if providerId ≤ 0 then none
    else if jsTrim f.modelName = "" then none
    else
      let nextMaxIn := clampTokens (jsParseInt f.maxInputTokens)
      let nextMaxOut := clampTokens (jsParseInt f.maxOutputTokens)
      let nextPriceIn := clampPrice priceIn
      let nextPriceOut := clampPrice priceOut
      some
        { providerId := if providerId ≠ m.providerId then some providerId else none,
          modelName := if jsTrim f.modelName ≠ m.modelName then some (jsTrim f.modelName) else none,
          modelType := if f.modelType ≠ m.modelType then some f.modelType else none,
          maxInputTokens := if nextMaxIn ≠ m.maxInputTokens then some nextMaxIn else none,
          maxOutputTokens := if nextMaxOut ≠ m.maxOutputTokens then some nextMaxOut else none,
          supportStream := if f.supportStream ≠ m.supportStream then some f.supportStream else none,
          supportJson := if f.supportJson ≠ m.supportJson then some f.supportJson else none,
          priceInputPer1k :=
            if nextPriceIn ≠ m.priceInputPer1k then some nextPriceIn else none,
          priceOutputPer1k :=
            if nextPriceOut ≠ m.priceOutputPer1k then some nextPriceOut else none }

end LlmManagementPage

namespace AgentManagementPage

/-- An agent record, from the Agent interface. -/
structure Agent where
  id : Int
  name : String
  description : String
  instruction : String
  agentType : String
  createdAt : String
deriving DecidableEq

/-- The agent edit form state. -/
structure AgentForm where
  name : String
  description : String
  instruction : String
  agentType : String
deriving DecidableEq

/-- Request body of updateAgent: every field optional. -/
structure AgentUpdatePayload where
  name : Option String
  description : Option String
  instruction : Option String
  agentType : Option String
deriving DecidableEq

/-- Payload construction of the edit branch of submitAgent from
src/pages/AgentManagementPage.tsx; none models the early returns on a
blank name or agent type.  Description and instruction are compared
without trimming (the or-empty guards of the source are the identity on
strings) but sent trimmed. -/
def submitAgentEditPayload (f : AgentForm) (a : Agent) : Option AgentUpdatePayload :=
  if jsTrim f.name = "" then none
  else if jsTrim f.agentType = "" then none
  else some
    { name := if jsTrim f.name ≠ "" ∧ jsTrim f.name ≠ a.name then some (jsTrim f.name) else none,
      description := if f.description ≠ a.description then some (jsTrim f.description) else none,
      instruction := if f.instruction ≠ a.instruction then some (jsTrim f.instruction) else none,
      agentType :=
        if jsTrim f.agentType ≠ "" ∧ jsTrim f.agentType ≠ a.agentType then
          some (jsTrim f.agentType)
        else none }

end AgentManagementPage

/-- Decode a character list as consecutive hexadecimal byte pairs; inverse
of the hex encoding used by calculateFileHash. -/
def decodeHexPairs : List Char → List Nat
  | c1 :: c2 :: rest =>
    ((hexDigitVal c1).getD 0 * 16 + (hexDigitVal c2).getD 0) :: decodeHexPairs rest
  | _ => []

lemma natToBytesBE_length (k n : Nat) : (natToBytesBE k n).length = k := by
  induction k generalizing n with
  | zero => rfl
  | succ k ih => simp [natToBytesBE, ih]

lemma natToBytesBE_lt (k n : Nat) : ∀ x ∈ natToBytesBE k n, x < 256 := by
  induction k generalizing n with
  | zero => intro x hx; simp [natToBytesBE] at hx
  | succ k ih =>
    intro x hx
    simp only [natToBytesBE, List.mem_append, List.mem_singleton] at hx
    rcases hx with hx | hx
    · exact ih _ _ hx
    · subst hx; exact Nat.mod_lt _ (by omega)

lemma sha256_byteRange (msg : List Nat) : ∀ x ∈ sha256 msg, x < 256 := by
  intro x hx
  unfold sha256 at hx
  simp only [List.mem_flatMap] at hx
  rcases hx with ⟨a, _, hxa⟩
  exact natToBytesBE_lt 4 a x hxa

lemma sha256_length (msg : List Nat) : (sha256 msg).length = 32 := by
  unfold sha256 hash8ToList
  simp [natToBytesBE_length]

lemma lowercaseHexDigits_length : lowercaseHexDigits.length = 16 := by decide

lemma hexDigitChar_mem (n : Nat) : hexDigitChar n ∈ lowercaseHexDigits := by
  rcases Nat.lt_or_ge n 16 with h | h
  · interval_cases n <;> decide
  · unfold hexDigitChar
    rw [List.getD_eq_default]
    · decide
    · rw [lowercaseHexDigits_length]; omega

lemma jsHexByte_length (b : Nat) : (jsHexByte b).length = 2 := by
  unfold jsHexByte jsNumToStringHex jsPadStart2
  split_ifs <;> simp_all

lemma jsHexByte_chars (b : Nat) : ∀ c ∈ jsHexByte b, c ∈ lowercaseHexDigits := by
  intro c hc
  unfold jsHexByte jsNumToStringHex jsPadStart2 at hc
  split_ifs at hc <;> simp_all <;>
    rcases hc with hc | hc <;> subst hc <;>
      first | exact hexDigitChar_mem _ | decide

lemma jsHexByte_eq (b : Nat) (_hb : b < 256) :
    jsHexByte b = [hexDigitChar (b / 16), hexDigitChar (b % 16)] := by
  unfold jsHexByte jsNumToStringHex jsPadStart2
  by_cases h : b < 16
  · have hd : b / 16 = 0 := Nat.div_eq_of_lt h
    have hm : b % 16 = b := Nat.mod_eq_of_lt h
    simp [h, hd, hm]
    rfl
  · simp [h]

lemma hexDigitVal_hexDigitChar (n : Nat) (h : n < 16) :
    hexDigitVal (hexDigitChar n) = some n := by
  interval_cases n <;> decide

lemma decodeHexPairs_flatMap (l : List Nat) (h : ∀ x ∈ l, x < 256) :
    decodeHexPairs (l.flatMap jsHexByte) = l := by
  induction l with
  | nil => rfl
  | cons b rest ih =>
    have hb : b < 256 := h b (by simp)
    have hdiv : b / 16 < 16 := by omega
    have hmod : b % 16 < 16 := by omega
    rw [List.flatMap_cons, jsHexByte_eq b hb]
    simp only [List.cons_append, List.nil_append]
    rw [decodeHexPairs, hexDigitVal_hexDigitChar _ hdiv, hexDigitVal_hexDigitChar _ hmod]
    simp only [Option.getD_some]
    rw [ih (fun x hx => h x (by simp [hx]))]
    congr 1
    omega

lemma flatMap_jsHexByte_length (l : List Nat) :
    (l.flatMap jsHexByte).length = 2 * l.length := by
  induction l with
  | nil => rfl
  | cons b rest ih =>
    simp [List.flatMap_cons, jsHexByte_length, ih]
    omega

/-
  Claim theorems.
-/

open SoftwareTemplatesPage in
/-- C8: for every extension string, getFileCategory is one of exactly six
values — image, video, audio, text, archive, binary — and returns binary
exactly when the extension appears in none of the five fixed extension
lists. -/
theorem getFileCategory_six_values (ext : String) :
    (getFileCategory ext = "image" ∨ getFileCategory ext = "video" ∨
     getFileCategory ext = "audio" ∨ getFileCategory ext = "text" ∨
     getFileCategory ext = "archive" ∨ getFileCategory ext = "binary") ∧
    (getFileCategory ext = "binary" ↔
      (ext ∉ imageExts ∧ ext ∉ videoExts ∧ ext ∉ audioExts ∧
       ext ∉ textExts ∧ ext ∉ archiveExts)) := by
  unfold getFileCategory
  split_ifs with h1 h2 h3 h4 h5 <;>
    simp_all [List.contains, List.elem_eq_mem]

/-- C7: the content hasher is deterministic — equal byte contents give
equal digests — and its output is the lowercase hexadecimal encoding of
the SHA-256 digest of the bytes: decoding the hexadecimal pairs returns
exactly the 32 digest bytes, every character is a lowercase hexadecimal
digit, and the output has 64 characters. -/
theorem calculateFileHash_deterministic_sha256_hex :
    (∀ b1 b2 : List Nat, b1 = b2 → calculateFileHash b1 = calculateFileHash b2) ∧
    (∀ bytes : List Nat, decodeHexPairs (calculateFileHash bytes).data = sha256 bytes) ∧
    (∀ bytes : List Nat, ∀ c ∈ (calculateFileHash bytes).data, c ∈ lowercaseHexDigits) ∧
    (∀ bytes : List Nat, (calculateFileHash bytes).length = 64) := by
  refine ⟨fun b1 b2 h => by rw [h], fun bytes => ?_, fun bytes c hc => ?_, fun bytes => ?_⟩
  · exact decodeHexPairs_flatMap _ (sha256_byteRange bytes)
  · have hdata : (calculateFileHash bytes).data = (sha256 bytes).flatMap jsHexByte := rfl
    rw [hdata] at hc
    simp only [List.mem_flatMap] at hc
    rcases hc with ⟨b, _, hcb⟩
    exact jsHexByte_chars b c hcb
  · show ((sha256 bytes).flatMap jsHexByte).length = 64
    rw [flatMap_jsHexByte_length, sha256_length]

/-- Witness for C7: the determinism hypothesis discharged at a concrete
byte list. -/
theorem calculateFileHash_deterministic_sha256_hex_witness :
    ([1, 2] : List Nat) = [1, 2] ∧ calculateFileHash [1, 2] = calculateFileHash [1, 2] :=
  ⟨rfl, calculateFileHash_deterministic_sha256_hex.1 [1, 2] [1, 2] rfl⟩

lemma apiResult_cases {α : Type} (x : ApiResult α) :
    (∃ d, x = ApiResult.ok d) ∨ (∃ m, x = ApiResult.err m) := by
  cases x with
  | ok d => exact Or.inl ⟨d, rfl⟩
  | err m => exact Or.inr ⟨m, rfl⟩

/-- A wrapper over a fetch outcome is total: every outcome, including a
thrown value, maps to an ok record or an error record, so no exception
reaches the caller. -/
def neverThrows {α : Type} (w : FetchOutcome → ApiResult α) : Prop :=
  ∀ o, (∃ d, w o = ApiResult.ok d) ∨ (∃ m, w o = ApiResult.err m)

/-- A wrapper returns a thrown value as an error record whose message is
the Error message, or the given default for a non-Error value. -/
def catchesWith {α : Type} (dflt : String) (w : FetchOutcome → ApiResult α) : Prop :=
  ∀ e, w (FetchOutcome.thrown e) = ApiResult.err (thrownMessage dflt e)

open SoftwareTemplatesPage in
/-- C9: each of the eight API wrappers is total on fetch outcomes and
returns every thrown value as an error record, whose message is the Error
message when the thrown value is an Error and otherwise the request
failure default (the upload failure default for the OSS PUT). -/
theorem api_wrappers_never_throw :
    (∀ d, thrownMessage d JsThrown.nonError = d) ∧
    (∀ d m, thrownMessage d (JsThrown.errorObj m) = m) ∧
    (∀ u p, neverThrows (LoginPage.adminLogin u p) ∧
      catchesWith "Request failed" (LoginPage.adminLogin u p)) ∧
    (∀ i, neverThrows (preUploadFile i) ∧ catchesWith "Request failed" (preUploadFile i)) ∧
    (∀ url f ct, neverThrows (uploadFileToOSS url f ct) ∧
      catchesWith "Upload failed" (uploadFileToOSS url f ct)) ∧
    (∀ fid pg ps, neverThrows (listFileVersions fid pg ps) ∧
      catchesWith "Request failed" (listFileVersions fid pg ps)) ∧
    (∀ fid vi vn, neverThrows (getDownloadUrl fid vi vn) ∧
      catchesWith "Request failed" (getDownloadUrl fid vi vn)) ∧
    (∀ pg ps, neverThrows (listSoftwareTemplates pg ps) ∧
      catchesWith "Request failed" (listSoftwareTemplates pg ps)) ∧
    (∀ i, neverThrows (createSoftwareTemplate i) ∧
      catchesWith "Request failed" (createSoftwareTemplate i)) ∧
    (∀ i j, neverThrows (updateSoftwareTemplate i j) ∧
      catchesWith "Request failed" (updateSoftwareTemplate i j)) := by
  refine ⟨fun _ => rfl, fun _ _ => rfl,
    fun u p => ⟨fun o => apiResult_cases _, fun e => rfl⟩,
    fun i => ⟨fun o => apiResult_cases _, fun e => rfl⟩,
    fun url f ct => ⟨fun o => apiResult_cases _, fun e => rfl⟩,
    fun fid pg ps => ⟨fun o => apiResult_cases _, fun e => rfl⟩,
    fun fid vi vn => ⟨fun o => apiResult_cases _, fun e => rfl⟩,
    fun pg ps => ⟨fun o => apiResult_cases _, fun e => rfl⟩,
    fun i => ⟨fun o => apiResult_cases _, fun e => rfl⟩,
    fun i j => ⟨fun o => apiResult_cases _, fun e => rfl⟩⟩

open SoftwareTemplatesPage in
lemma createRegistrarPhase_fields (form : FormData) (sel0 : Option Int) (env : CreateEnv)
    (pc : Option PreUploadRequest) (oc : Option OssCall) (a : Option Int) :
    (createRegistrarPhase form sel0 env pc oc a).preUploadCalled = pc ∧
    (createRegistrarPhase form sel0 env pc oc a).ossUploadCalled = oc ∧
    (createRegistrarPhase form sel0 env pc oc a).createCalled ≠ none := by
  obtain ⟨ht, pre, oss, cr, rl⟩ := env
  cases cr <;> cases rl <;> simp [createRegistrarPhase]

open SoftwareTemplatesPage in
lemma updateRegistrarPhase_fields (form : FormData) (tid : Int) (sel0 : Option Int)
    (env : UpdateEnv) (pc : Option PreUploadRequest) (oc : Option OssCall) (a : Option Int) :
    (updateRegistrarPhase form tid sel0 env pc oc a).preUploadCalled = pc ∧
    (updateRegistrarPhase form tid sel0 env pc oc a).ossUploadCalled = oc ∧
    (updateRegistrarPhase form tid sel0 env pc oc a).updateCalled ≠ none := by
  obtain ⟨ht, pre, oss, up, rl⟩ := env
  cases up <;> cases rl <;> simp [updateRegistrarPhase]

open SoftwareTemplatesPage in
/-- C5: in both the create and the update flow, whenever the negotiation
step was invoked (the trace records a pre-upload call) and its result is a
failure, the OSS PUT is never invoked, the registrar is never invoked, and
the workflow ends in the failed state whose message embeds the negotiation
failure message. -/
theorem preupload_failure_aborts_workflow
    (form : FormData) (uploadMode : UploadMode) (selectedFile : Option FileData)
    (editingTemplate : Option SoftwareTemplate) (sel0 : Option Int)
    (envC : CreateEnv) (envU : UpdateEnv) (mC mU : String)
    (hC : envC.pre = ApiResult.err mC) (hU : envU.pre = ApiResult.err mU)
    (hcallC : (handleUploadAndCreate form uploadMode selectedFile sel0 envC).preUploadCalled ≠
      none)
    (hcallU : (handleUploadAndUpdate form uploadMode selectedFile editingTemplate sel0
      envU).preUploadCalled ≠ none) :
    ((handleUploadAndCreate form uploadMode selectedFile sel0 envC).ossUploadCalled = none ∧
     (handleUploadAndCreate form uploadMode selectedFile sel0 envC).createCalled = none ∧
     (handleUploadAndCreate form uploadMode selectedFile sel0 envC).message =
       some { type := MsgType.error, text := "预上传失败: " ++ mC }) ∧
    ((handleUploadAndUpdate form uploadMode selectedFile editingTemplate sel0
        envU).ossUploadCalled = none ∧
     (handleUploadAndUpdate form uploadMode selectedFile editingTemplate sel0
        envU).updateCalled = none ∧
     (handleUploadAndUpdate form uploadMode selectedFile editingTemplate sel0 envU).message =
       some { type := MsgType.error, text := "预上传失败: " ++ mU }) := by
  constructor
  · by_cases hname : jsTrim form.name = ""
    · exact absurd (by simp [handleUploadAndCreate, hname]) hcallC
    · cases uploadMode with
      | new =>
        cases selectedFile with
        | none =>
          exact absurd
            (by simp [handleUploadAndCreate, hname,
              (createRegistrarPhase_fields form sel0 envC none none _).1]) hcallC
        | some f =>
          by_cases hht : envC.hashThrows
          · exact absurd (by simp [handleUploadAndCreate, hname, hht]) hcallC
          · simp [handleUploadAndCreate, hname, hht, hC]
      | existing =>
        exact absurd
          (by simp [handleUploadAndCreate, hname,
            (createRegistrarPhase_fields form sel0 envC none none _).1]) hcallC
  · cases editingTemplate with
    | none => exact absurd (by simp [handleUploadAndUpdate]) hcallU
    | some tmpl =>
      cases uploadMode with
      | new =>
        cases selectedFile with
        | none =>
          exact absurd
            (by simp [handleUploadAndUpdate,
              (updateRegistrarPhase_fields form tmpl.id sel0 envU none none _).1]) hcallU
        | some f =>
          by_cases hht : envU.hashThrows
          · exact absurd (by simp [handleUploadAndUpdate, hht]) hcallU
          · simp [handleUploadAndUpdate, hht, hU]
      | existing =>
        exact absurd
          (by simp [handleUploadAndUpdate,
            (updateRegistrarPhase_fields form tmpl.id sel0 envU none none _).1]) hcallU

open SoftwareTemplatesPage in
lemma createRegistrarPhase_createCalled (form : FormData) (sel0 : Option Int)
    (env : CreateEnv) (pc : Option PreUploadRequest) (oc : Option OssCall) (a : Option Int) :
    (createRegistrarPhase form sel0 env pc oc a).createCalled =
      some { name := jsTrim form.name,
             description :=
               if jsTrim form.description = "" then none else some (jsTrim form.description),
             archiveFileId :=
               match a with
               | some v => if v = 0 then none else some v
               | none => none } := by
  obtain ⟨ht, pre, oss, cr, rl⟩ := env
  cases cr <;> cases rl <;> simp [createRegistrarPhase]

open SoftwareTemplatesPage in
lemma updateRegistrarPhase_updateCalled (form : FormData) (tid : Int) (sel0 : Option Int)
    (env : UpdateEnv) (pc : Option PreUploadRequest) (oc : Option OssCall) (a : Option Int) :
    (updateRegistrarPhase form tid sel0 env pc oc a).updateCalled =
      some (tid,
        { name := if jsTrim form.name = "" then none else some (jsTrim form.name),
          description :=
            if jsTrim form.description = "" then none else some (jsTrim form.description),
          archiveFileId :=
            match a with
            | some v => if v = 0 then none else some v
            | none => none }) := by
  obtain ⟨ht, pre, oss, up, rl⟩ := env
  cases up <;> cases rl <;> simp [updateRegistrarPhase]

open SoftwareTemplatesPage in
/-- C6: in both flows, whenever the OSS PUT was invoked (the trace records
the blob-transfer call) and its result is a failure, the registrar is
never invoked, and the workflow ends in the failed state whose message
embeds the transfer failure message. -/
theorem oss_failure_skips_registrar
    (form : FormData) (uploadMode : UploadMode) (selectedFile : Option FileData)
    (editingTemplate : Option SoftwareTemplate) (sel0 : Option Int)
    (envC : CreateEnv) (envU : UpdateEnv) (mC mU : String)
    (hCoss : envC.oss = ApiResult.err mC) (hUoss : envU.oss = ApiResult.err mU)
    (hcallC : (handleUploadAndCreate form uploadMode selectedFile sel0 envC).ossUploadCalled ≠
      none)
    (hcallU : (handleUploadAndUpdate form uploadMode selectedFile editingTemplate sel0
      envU).ossUploadCalled ≠ none) :
    ((handleUploadAndCreate form uploadMode selectedFile sel0 envC).createCalled = none ∧
     (handleUploadAndCreate form uploadMode selectedFile sel0 envC).message =
       some { type := MsgType.error, text := "上传失败: " ++ mC }) ∧
    ((handleUploadAndUpdate form uploadMode selectedFile editingTemplate sel0
        envU).updateCalled = none ∧
     (handleUploadAndUpdate form uploadMode selectedFile editingTemplate sel0 envU).message =
       some { type := MsgType.error, text := "上传失败: " ++ mU }) := by
  constructor
  · by_cases hname : jsTrim form.name = ""
    · exact absurd (by simp [handleUploadAndCreate, hname]) hcallC
    · cases uploadMode with
      | new =>
        cases selectedFile with
        | none =>
          exact absurd
            (by simp [handleUploadAndCreate, hname,
              (createRegistrarPhase_fields form sel0 envC none none _).2.1]) hcallC
        | some f =>
          by_cases hht : envC.hashThrows
          · exact absurd (by simp [handleUploadAndCreate, hname, hht]) hcallC
          · cases hpre : envC.pre with
            | err m =>
              exact absurd (by simp [handleUploadAndCreate, hname, hht, hpre]) hcallC
            | ok data =>
              simp [handleUploadAndCreate, hname, hht, hpre, hCoss]
      | existing =>
        exact absurd
          (by simp [handleUploadAndCreate, hname,
            (createRegistrarPhase_fields form sel0 envC none none _).2.1]) hcallC
  · cases editingTemplate with
    | none => exact absurd (by simp [handleUploadAndUpdate]) hcallU
    | some tmpl =>
      cases uploadMode with
      | new =>
        cases selectedFile with
        | none =>
          exact absurd
            (by simp [handleUploadAndUpdate,
              (updateRegistrarPhase_fields form tmpl.id sel0 envU none none _).2.1]) hcallU
        | some f =>
          by_cases hht : envU.hashThrows
          · exact absurd (by simp [handleUploadAndUpdate, hht]) hcallU
          · cases hpre : envU.pre with
            | err m =>
              exact absurd (by simp [handleUploadAndUpdate, hht, hpre]) hcallU
            | ok data =>
              simp [handleUploadAndUpdate, hht, hpre, hUoss]
      | existing =>
        exact absurd
          (by simp [handleUploadAndUpdate,
            (updateRegistrarPhase_fields form tmpl.id sel0 envU none none _).2.1]) hcallU

open SoftwareTemplatesPage in
/-- C4: in both flows, whenever the negotiation step was invoked and
succeeded with fileId 42 (any version number) and the OSS PUT succeeded,
the registrar is invoked with a request body whose archiveFileId is 42. -/
theorem negotiated_fileId_reaches_registrar
    (form : FormData) (uploadMode : UploadMode) (selectedFile : Option FileData)
    (editingTemplate : Option SoftwareTemplate) (sel0 : Option Int)
    (envC : CreateEnv) (envU : UpdateEnv) (dataC dataU : PreUploadResp)
    (hCpre : envC.pre = ApiResult.ok dataC) (hCfid : dataC.fileId = 42)
    (hCoss : envC.oss = ApiResult.ok ())
    (hUpre : envU.pre = ApiResult.ok dataU) (hUfid : dataU.fileId = 42)
    (hUoss : envU.oss = ApiResult.ok ())
    (hcallC : (handleUploadAndCreate form uploadMode selectedFile sel0 envC).preUploadCalled ≠
      none)
    (hcallU : (handleUploadAndUpdate form uploadMode selectedFile editingTemplate sel0
      envU).preUploadCalled ≠ none) :
    (∃ input, (handleUploadAndCreate form uploadMode selectedFile sel0 envC).createCalled =
        some input ∧ input.archiveFileId = some 42) ∧
    (∃ tid input, (handleUploadAndUpdate form uploadMode selectedFile editingTemplate sel0
        envU).updateCalled = some (tid, input) ∧ input.archiveFileId = some 42) := by
  constructor
  · by_cases hname : jsTrim form.name = ""
    · exact absurd (by simp [handleUploadAndCreate, hname]) hcallC
    · cases uploadMode with
      | new =>
        cases selectedFile with
        | none =>
          exact absurd
            (by simp [handleUploadAndCreate, hname,
              (createRegistrarPhase_fields form sel0 envC none none _).1]) hcallC
        | some f =>
          by_cases hht : envC.hashThrows
          · exact absurd (by simp [handleUploadAndCreate, hname, hht]) hcallC
          · have hred : (handleUploadAndCreate form UploadMode.new (some f) sel0
                envC).createCalled =
                some { name := jsTrim form.name,
                       description :=
                         if jsTrim form.description = "" then none
                         else some (jsTrim form.description),
                       archiveFileId :=
                         if dataC.fileId = 0 then none else some dataC.fileId } := by
              simp [handleUploadAndCreate, hname, hht, hCpre, hCoss,
                createRegistrarPhase_createCalled]
            exact ⟨_, hred, by simp [hCfid]⟩
      | existing =>
        exact absurd
          (by simp [handleUploadAndCreate, hname,
            (createRegistrarPhase_fields form sel0 envC none none _).1]) hcallC
  · cases editingTemplate with
    | none => exact absurd (by simp [handleUploadAndUpdate]) hcallU
    | some tmpl =>
      cases uploadMode with
      | new =>
        cases selectedFile with
        | none =>
          exact absurd
            (by simp [handleUploadAndUpdate,
              (updateRegistrarPhase_fields form tmpl.id sel0 envU none none _).1]) hcallU
        | some f =>
          by_cases hht : envU.hashThrows
          · exact absurd (by simp [handleUploadAndUpdate, hht]) hcallU
          · have hred : (handleUploadAndUpdate form UploadMode.new (some f) (some tmpl)
                sel0 envU).updateCalled =
                some (tmpl.id,
                  { name := if jsTrim form.name = "" then none else some (jsTrim form.name),
                    description :=
                      if jsTrim form.description = "" then none
                      else some (jsTrim form.description),
                    archiveFileId :=
                      if dataU.fileId = 0 then none else some dataU.fileId }) := by
              simp [handleUploadAndUpdate, hht, hUpre, hUoss,
                updateRegistrarPhase_updateCalled]
            exact ⟨tmpl.id, _, hred, by simp [hUfid]⟩
      | existing =>
        exact absurd
          (by simp [handleUploadAndUpdate,
            (updateRegistrarPhase_fields form tmpl.id sel0 envU none none _).1]) hcallU

open SoftwareTemplatesPage in
lemma existingModeArchiveFileId_nonpos (form : FormData)
    (h : ∀ v, jsParseInt (jsTrim form.archiveFileId) = some v → v ≤ 0) :
    existingModeArchiveFileId form UploadMode.existing = none := by
  unfold existingModeArchiveFileId
  split_ifs with h1
  · cases hp : jsParseInt (jsTrim form.archiveFileId) with
    | none => rfl
    | some v =>
      have hv := h v hp
      simp [show ¬ (v > 0) by omega]
  · rfl

open SoftwareTemplatesPage in
lemma createRegistrarPhase_success_message (form : FormData) (sel0 : Option Int)
    (env : CreateEnv) (pc : Option PreUploadRequest) (oc : Option OssCall) (a : Option Int)
    (t : SoftwareTemplate) (L : List SoftwareTemplate)
    (hcr : env.create = ApiResult.ok t) (hrl : env.reload = ApiResult.ok L) :
    (createRegistrarPhase form sel0 env pc oc a).message =
      some { type := MsgType.success, text := "模板创建成功！" } := by
  simp [createRegistrarPhase, hcr, hrl]

open SoftwareTemplatesPage in
lemma updateRegistrarPhase_success_message (form : FormData) (tid : Int) (sel0 : Option Int)
    (env : UpdateEnv) (pc : Option PreUploadRequest) (oc : Option OssCall) (a : Option Int)
    (L : List SoftwareTemplate)
    (hup : env.update = ApiResult.ok ()) (hrl : env.reload = ApiResult.ok L) :
    (updateRegistrarPhase form tid sel0 env pc oc a).message =
      some { type := MsgType.success, text := "模板更新成功！" } := by
  simp [updateRegistrarPhase, hup, hrl]

open SoftwareTemplatesPage in
/-- C10: in both flows the archive link is silently omitted in two cases —
when the negotiated fileId is zero (a falsy number), and in existing mode
when the manually entered id does not parse to a strictly positive
integer — and when the remaining steps succeed, the workflow still ends in
the success state, so the template is created or updated without an
archive link and no error is raised. -/
theorem falsy_archiveFileId_silently_omitted
    (form : FormData) (f : FileData) (sf : Option FileData) (tmpl tC : SoftwareTemplate)
    (sel0 : Option Int) (envC : CreateEnv) (envU : UpdateEnv)
    (dataC dataU : PreUploadResp) (LC LU : List SoftwareTemplate) :
    (jsTrim form.name ≠ "" → envC.hashThrows = false →
     envC.pre = ApiResult.ok dataC → dataC.fileId = 0 → envC.oss = ApiResult.ok () →
     envC.create = ApiResult.ok tC → envC.reload = ApiResult.ok LC →
     ∃ input,
       (handleUploadAndCreate form UploadMode.new (some f) sel0 envC).createCalled =
         some input ∧
       input.archiveFileId = none ∧
       (handleUploadAndCreate form UploadMode.new (some f) sel0 envC).message =
         some { type := MsgType.success, text := "模板创建成功！" }) ∧
    (jsTrim form.name ≠ "" →
     (∀ v, jsParseInt (jsTrim form.archiveFileId) = some v → v ≤ 0) →
     envC.create = ApiResult.ok tC → envC.reload = ApiResult.ok LC →
     ∃ input,
       (handleUploadAndCreate form UploadMode.existing sf sel0 envC).createCalled =
         some input ∧
       input.archiveFileId = none ∧
       (handleUploadAndCreate form UploadMode.existing sf sel0 envC).message =
         some { type := MsgType.success, text := "模板创建成功！" }) ∧
    (envU.hashThrows = false →
     envU.pre = ApiResult.ok dataU → dataU.fileId = 0 → envU.oss = ApiResult.ok () →
     envU.update = ApiResult.ok () → envU.reload = ApiResult.ok LU →
     ∃ input,
       (handleUploadAndUpdate form UploadMode.new (some f) (some tmpl) sel0
         envU).updateCalled = some (tmpl.id, input) ∧
       input.archiveFileId = none ∧
       (handleUploadAndUpdate form UploadMode.new (some f) (some tmpl) sel0 envU).message =
         some { type := MsgType.success, text := "模板更新成功！" }) ∧
    ((∀ v, jsParseInt (jsTrim form.archiveFileId) = some v → v ≤ 0) →
     envU.update = ApiResult.ok () → envU.reload = ApiResult.ok LU →
     ∃ input,
       (handleUploadAndUpdate form UploadMode.existing sf (some tmpl) sel0
         envU).updateCalled = some (tmpl.id, input) ∧
       input.archiveFileId = none ∧
       (handleUploadAndUpdate form UploadMode.existing sf (some tmpl) sel0 envU).message =
         some { type := MsgType.success, text := "模板更新成功！" }) := by
  refine ⟨?_, ?_, ?_, ?_⟩
  · intro hname hht hpre hfid hoss hcr hrl
    have hred : (handleUploadAndCreate form UploadMode.new (some f) sel0
        envC).createCalled =
        some { name := jsTrim form.name,
               description :=
                 if jsTrim form.description = "" then none
                 else some (jsTrim form.description),
               archiveFileId := if dataC.fileId = 0 then none else some dataC.fileId } := by
      simp [handleUploadAndCreate, hname, hht, hpre, hoss, createRegistrarPhase_createCalled]
    refine ⟨_, hred, by simp [hfid], ?_⟩
    simp [handleUploadAndCreate, hname, hht, hpre, hoss,
      createRegistrarPhase_success_message form sel0 envC _ _ _ tC LC hcr hrl]
  · intro hname hparse hcr hrl
    cases sf with
    | none =>
      have hred : (handleUploadAndCreate form UploadMode.existing none sel0
          envC).createCalled =
          some { name := jsTrim form.name,
                 description :=
                   if jsTrim form.description = "" then none
                   else some (jsTrim form.description),
                 archiveFileId := none } := by
        simp [handleUploadAndCreate, hname, createRegistrarPhase_createCalled,
          existingModeArchiveFileId_nonpos form hparse]
      refine ⟨_, hred, rfl, ?_⟩
      simp [handleUploadAndCreate, hname,
        createRegistrarPhase_success_message form sel0 envC _ _ _ tC LC hcr hrl]
    | some f2 =>
      have hred : (handleUploadAndCreate form UploadMode.existing (some f2) sel0
          envC).createCalled =
          some { name := jsTrim form.name,
                 description :=
                   if jsTrim form.description = "" then none
                   else some (jsTrim form.description),
                 archiveFileId := none } := by
        simp [handleUploadAndCreate, hname, createRegistrarPhase_createCalled,
          existingModeArchiveFileId_nonpos form hparse]
      refine ⟨_, hred, rfl, ?_⟩
      simp [handleUploadAndCreate, hname,
        createRegistrarPhase_success_message form sel0 envC _ _ _ tC LC hcr hrl]
  · intro hht hpre hfid hoss hup hrl
    have hred : (handleUploadAndUpdate form UploadMode.new (some f) (some tmpl) sel0
        envU).updateCalled =
        some (tmpl.id,
          { name := if jsTrim form.name = "" then none else some (jsTrim form.name),
            description :=
              if jsTrim form.description = "" then none
              else some (jsTrim form.description),
            archiveFileId := if dataU.fileId = 0 then none else some dataU.fileId }) := by
      simp [handleUploadAndUpdate, hht, hpre, hoss, updateRegistrarPhase_updateCalled]
    refine ⟨_, hred, by simp [hfid], ?_⟩
    simp [handleUploadAndUpdate, hht, hpre, hoss,
      updateRegistrarPhase_success_message form tmpl.id sel0 envU _ _ _ LU hup hrl]
  · intro hparse hup hrl
    cases sf with
    | none =>
      have hred : (handleUploadAndUpdate form UploadMode.existing none (some tmpl) sel0
          envU).updateCalled =
          some (tmpl.id,
            { name := if jsTrim form.name = "" then none else some (jsTrim form.name),
              description :=
                if jsTrim form.description = "" then none
                else some (jsTrim form.description),
              archiveFileId := none }) := by
        simp [handleUploadAndUpdate, updateRegistrarPhase_updateCalled,
          existingModeArchiveFileId_nonpos form hparse]
      refine ⟨_, hred, rfl, ?_⟩
      simp [handleUploadAndUpdate,
        updateRegistrarPhase_success_message form tmpl.id sel0 envU _ _ _ LU hup hrl]
    | some f2 =>
      have hred : (handleUploadAndUpdate form UploadMode.existing (some f2) (some tmpl)
          sel0 envU).updateCalled =
          some (tmpl.id,
            { name := if jsTrim form.name = "" then none else some (jsTrim form.name),
              description :=
                if jsTrim form.description = "" then none
                else some (jsTrim form.description),
              archiveFileId := none }) := by
        simp [handleUploadAndUpdate, updateRegistrarPhase_updateCalled,
          existingModeArchiveFileId_nonpos form hparse]
      refine ⟨_, hred, rfl, ?_⟩
      simp [handleUploadAndUpdate,
        updateRegistrarPhase_success_message form tmpl.id sel0 envU _ _ _ LU hup hrl]

/-- Sample local file for the witness theorems (empty byte content). -/
def sampleFile : SoftwareTemplatesPage.FileData :=
  { name := "a.zip", size := 0, type := "", bytes := [] }

/-- Sample loaded template record for the witness theorems. -/
def sampleTemplate : SoftwareTemplatesPage.SoftwareTemplate :=
  { id := 7, name := "tpl", description := "", archiveFileId := 0, createdBy := 1,
    createdAt := "", updatedAt := "" }

/-- Sample form state for the witness theorems. -/
def sampleForm : SoftwareTemplatesPage.FormData :=
  { name := "tpl", description := "", archiveFileId := "" }

/-- Sample form state whose manual archive file id parses negative. -/
def sampleFormNeg : SoftwareTemplatesPage.FormData :=
  { name := "tpl", description := "", archiveFileId := "-3" }

/-- Sample negotiation response with fileId 42 and version number 3. -/
def sampleResp42 : SoftwareTemplatesPage.PreUploadResp :=
  { uploadUrl := "https://oss.example/slot", fileId := 42, versionId := 5,
    versionNumber := 3, contentType := "application/zip" }

/-- Sample negotiation response with the falsy fileId 0. -/
def sampleResp0 : SoftwareTemplatesPage.PreUploadResp :=
  { uploadUrl := "https://oss.example/slot", fileId := 0, versionId := 5,
    versionNumber := 3, contentType := "application/zip" }

/-- Create environment whose negotiation step fails. -/
def sampleEnvCPreFail : SoftwareTemplatesPage.CreateEnv :=
  { hashThrows := false, pre := ApiResult.err "boom", oss := ApiResult.ok (),
    create := ApiResult.ok sampleTemplate, reload := ApiResult.ok [] }

/-- Update environment whose negotiation step fails. -/
def sampleEnvUPreFail : SoftwareTemplatesPage.UpdateEnv :=
  { hashThrows := false, pre := ApiResult.err "bust", oss := ApiResult.ok (),
    update := ApiResult.ok (), reload := ApiResult.ok [] }

/-- Create environment whose OSS PUT fails. -/
def sampleEnvCOssFail : SoftwareTemplatesPage.CreateEnv :=
  { hashThrows := false, pre := ApiResult.ok sampleResp42, oss := ApiResult.err "putC",
    create := ApiResult.ok sampleTemplate, reload := ApiResult.ok [] }

/-- Update environment whose OSS PUT fails. -/
def sampleEnvUOssFail : SoftwareTemplatesPage.UpdateEnv :=
  { hashThrows := false, pre := ApiResult.ok sampleResp42, oss := ApiResult.err "putU",
    update := ApiResult.ok (), reload := ApiResult.ok [] }

/-- Create environment where every step succeeds with fileId 42. -/
def sampleEnvCAllOk : SoftwareTemplatesPage.CreateEnv :=
  { hashThrows := false, pre := ApiResult.ok sampleResp42, oss := ApiResult.ok (),
    create := ApiResult.ok sampleTemplate, reload := ApiResult.ok [] }

/-- Update environment where every step succeeds with fileId 42. -/
def sampleEnvUAllOk : SoftwareTemplatesPage.UpdateEnv :=
  { hashThrows := false, pre := ApiResult.ok sampleResp42, oss := ApiResult.ok (),
    update := ApiResult.ok (), reload := ApiResult.ok [] }

/-- Create environment where every step succeeds with the falsy fileId 0. -/
def sampleEnvCZero : SoftwareTemplatesPage.CreateEnv :=
  { hashThrows := false, pre := ApiResult.ok sampleResp0, oss := ApiResult.ok (),
    create := ApiResult.ok sampleTemplate, reload := ApiResult.ok [] }

/-- Update environment where every step succeeds with the falsy fileId 0. -/
def sampleEnvUZero : SoftwareTemplatesPage.UpdateEnv :=
  { hashThrows := false, pre := ApiResult.ok sampleResp0, oss := ApiResult.ok (),
    update := ApiResult.ok (), reload := ApiResult.ok [] }

open SoftwareTemplatesPage in
/-- Witness for C5 at concrete inputs. -/
theorem preupload_failure_aborts_workflow_witness :
    ((handleUploadAndCreate sampleForm UploadMode.new (some sampleFile) none
        sampleEnvCPreFail).ossUploadCalled = none ∧
     (handleUploadAndCreate sampleForm UploadMode.new (some sampleFile) none
        sampleEnvCPreFail).createCalled = none ∧
     (handleUploadAndCreate sampleForm UploadMode.new (some sampleFile) none
        sampleEnvCPreFail).message =
       some { type := MsgType.error, text := "预上传失败: " ++ "boom" }) ∧
    ((handleUploadAndUpdate sampleForm UploadMode.new (some sampleFile)
        (some sampleTemplate) none sampleEnvUPreFail).ossUploadCalled = none ∧
     (handleUploadAndUpdate sampleForm UploadMode.new (some sampleFile)
        (some sampleTemplate) none sampleEnvUPreFail).updateCalled = none ∧
     (handleUploadAndUpdate sampleForm UploadMode.new (some sampleFile)
        (some sampleTemplate) none sampleEnvUPreFail).message =
       some { type := MsgType.error, text := "预上传失败: " ++ "bust" }) :=
  preupload_failure_aborts_workflow sampleForm UploadMode.new (some sampleFile)
    (some sampleTemplate) none sampleEnvCPreFail sampleEnvUPreFail "boom" "bust"
    rfl rfl (by decide) (by decide)

open SoftwareTemplatesPage in
/-- Witness for C6 at concrete inputs. -/
theorem oss_failure_skips_registrar_witness :
    ((handleUploadAndCreate sampleForm UploadMode.new (some sampleFile) none
        sampleEnvCOssFail).createCalled = none ∧
     (handleUploadAndCreate sampleForm UploadMode.new (some sampleFile) none
        sampleEnvCOssFail).message =
       some { type := MsgType.error, text := "上传失败: " ++ "putC" }) ∧
    ((handleUploadAndUpdate sampleForm UploadMode.new (some sampleFile)
        (some sampleTemplate) none sampleEnvUOssFail).updateCalled = none ∧
     (handleUploadAndUpdate sampleForm UploadMode.new (some sampleFile)
        (some sampleTemplate) none sampleEnvUOssFail).message =
       some { type := MsgType.error, text := "上传失败: " ++ "putU" }) :=
  oss_failure_skips_registrar sampleForm UploadMode.new (some sampleFile)
    (some sampleTemplate) none sampleEnvCOssFail sampleEnvUOssFail "putC" "putU"
    rfl rfl (by decide) (by decide)

open SoftwareTemplatesPage in
/-- Witness for C4 at concrete inputs: negotiation returns fileId 42 with
version number 3, the PUT succeeds, and the registrar body carries 42. -/
theorem negotiated_fileId_reaches_registrar_witness :
    (∃ input, (handleUploadAndCreate sampleForm UploadMode.new (some sampleFile) none
        sampleEnvCAllOk).createCalled = some input ∧ input.archiveFileId = some 42) ∧
    (∃ tid input, (handleUploadAndUpdate sampleForm UploadMode.new (some sampleFile)
        (some sampleTemplate) none sampleEnvUAllOk).updateCalled = some (tid, input) ∧
      input.archiveFileId = some 42) :=
  negotiated_fileId_reaches_registrar sampleForm UploadMode.new (some sampleFile)
    (some sampleTemplate) none sampleEnvCAllOk sampleEnvUAllOk sampleResp42 sampleResp42
    rfl rfl rfl rfl rfl rfl (by decide) (by decide)

open SoftwareTemplatesPage in
/-- Witness for C10 at concrete inputs: fileId 0 from negotiation, and a
manual id of minus three in existing mode, both leaving the archive link
out while the flows succeed. -/
theorem falsy_archiveFileId_silently_omitted_witness :
    (∃ input,
       (handleUploadAndCreate sampleFormNeg UploadMode.new (some sampleFile) none
         sampleEnvCZero).createCalled = some input ∧
       input.archiveFileId = none ∧
       (handleUploadAndCreate sampleFormNeg UploadMode.new (some sampleFile) none
         sampleEnvCZero).message =
         some { type := MsgType.success, text := "模板创建成功！" }) ∧
    (∃ input,
       (handleUploadAndCreate sampleFormNeg UploadMode.existing none none
         sampleEnvCZero).createCalled = some input ∧
       input.archiveFileId = none ∧
       (handleUploadAndCreate sampleFormNeg UploadMode.existing none none
         sampleEnvCZero).message =
         some { type := MsgType.success, text := "模板创建成功！" }) ∧
    (∃ input,
       (handleUploadAndUpdate sampleFormNeg UploadMode.new (some sampleFile)
         (some sampleTemplate) none sampleEnvUZero).updateCalled =
         some (sampleTemplate.id, input) ∧
       input.archiveFileId = none ∧
       (handleUploadAndUpdate sampleFormNeg UploadMode.new (some sampleFile)
         (some sampleTemplate) none sampleEnvUZero).message =
         some { type := MsgType.success, text := "模板更新成功！" }) ∧
    (∃ input,
       (handleUploadAndUpdate sampleFormNeg UploadMode.existing none
         (some sampleTemplate) none sampleEnvUZero).updateCalled =
         some (sampleTemplate.id, input) ∧
       input.archiveFileId = none ∧
       (handleUploadAndUpdate sampleFormNeg UploadMode.existing none
         (some sampleTemplate) none sampleEnvUZero).message =
         some { type := MsgType.success, text := "模板更新成功！" }) := by
  have hparse : ∀ v, jsParseInt (jsTrim sampleFormNeg.archiveFileId) = some v → v ≤ 0 := by
    intro v hv
    rw [show jsParseInt (jsTrim sampleFormNeg.archiveFileId) = some (-3) from by decide] at hv
    simp at hv
    omega
  have h := falsy_archiveFileId_silently_omitted sampleFormNeg sampleFile none
    sampleTemplate sampleTemplate none sampleEnvCZero sampleEnvUZero sampleResp0
    sampleResp0 [] []
  exact ⟨h.1 (by decide) rfl rfl rfl rfl rfl rfl,
    h.2.1 (by decide) hparse rfl rfl,
    h.2.2.1 rfl rfl rfl rfl rfl rfl,
    h.2.2.2 hparse rfl rfl⟩

open SoftwareTemplatesPage in
/-- Counterexample to C2 as stated: the registrar succeeds and returns a
new template with id 2, but after the reload the selected record is the
previously selected id 1, not the id of the created template. -/
theorem created_id_not_selected_counterexample :
    (handleUploadAndCreate ⟨"beta", "", ""⟩ UploadMode.new none (some 1)
        ⟨false, ApiResult.err "unused", ApiResult.err "unused",
         ApiResult.ok ⟨2, "beta", "", 0, 1, "", ""⟩,
         ApiResult.ok [⟨1, "alpha", "", 0, 1, "", ""⟩,
           ⟨2, "beta", "", 0, 1, "", ""⟩]⟩).finalSelectedId = some 1 ∧
      (1 : Int) ≠ 2 := by
  constructor
  · decide
  · decide

open SoftwareTemplatesPage in
/-- C2 amended: when the create registrar call was made and succeeded and
the reload succeeded with list L, the selection becomes the previously
selected template when its id is truthy and still present in L, else the
first element of L, else nothing; the created record returned by the
registrar is never consulted — replacing it by any other record leaves the
entire trace unchanged. -/
theorem create_success_selection_rule
    (form : FormData) (uploadMode : UploadMode) (selectedFile : Option FileData)
    (sel0 : Option Int) (env : CreateEnv) (t t2 : SoftwareTemplate)
    (L : List SoftwareTemplate)
    (hcr : env.create = ApiResult.ok t) (hrl : env.reload = ApiResult.ok L)
    (hcall : (handleUploadAndCreate form uploadMode selectedFile sel0 env).createCalled ≠
      none) :
    (handleUploadAndCreate form uploadMode selectedFile sel0 env).finalSelectedId =
      (loadTemplatesNextSelected sel0 L).map (fun x => x.id) ∧
    handleUploadAndCreate form uploadMode selectedFile sel0
        { env with create := ApiResult.ok t2 } =
      handleUploadAndCreate form uploadMode selectedFile sel0 env := by
  constructor
  · by_cases hname : jsTrim form.name = ""
    · exact absurd (by simp [handleUploadAndCreate, hname]) hcall
    · cases uploadMode with
      | new =>
        cases selectedFile with
        | none =>
          simp [handleUploadAndCreate, hname, createRegistrarPhase, hcr, hrl]
        | some f =>
          by_cases hht : env.hashThrows
          · exact absurd (by simp [handleUploadAndCreate, hname, hht]) hcall
          · cases hpre : env.pre with
            | err m =>
              exact absurd (by simp [handleUploadAndCreate, hname, hht, hpre]) hcall
            | ok data =>
              cases hoss : env.oss with
              | err m =>
                exact absurd (by simp [handleUploadAndCreate, hname, hht, hpre, hoss])
                  hcall
              | ok u =>
                simp [handleUploadAndCreate, hname, hht, hpre, hoss,
                  createRegistrarPhase, hcr, hrl]
      | existing =>
        cases selectedFile <;>
          simp [handleUploadAndCreate, hname, createRegistrarPhase, hcr, hrl]
  · by_cases hname : jsTrim form.name = ""
    · simp [handleUploadAndCreate, hname]
    · cases uploadMode with
      | new =>
        cases selectedFile with
        | none =>
          simp [handleUploadAndCreate, hname, createRegistrarPhase, hcr, hrl]
        | some f =>
          by_cases hht : env.hashThrows
          · simp [handleUploadAndCreate, hname, hht]
          · cases hpre : env.pre with
            | err m => simp [handleUploadAndCreate, hname, hht, hpre]
            | ok data =>
              cases hoss : env.oss with
              | err m => simp [handleUploadAndCreate, hname, hht, hpre, hoss]
              | ok u =>
                simp [handleUploadAndCreate, hname, hht, hpre, hoss,
                  createRegistrarPhase, hcr, hrl]
      | existing =>
        cases selectedFile <;>
          simp [handleUploadAndCreate, hname, createRegistrarPhase, hcr, hrl]

open SoftwareTemplatesPage in
/-- Witness for the amended C2 at concrete inputs. -/
theorem create_success_selection_rule_witness :
    (handleUploadAndCreate sampleForm UploadMode.new none (some 7)
        sampleEnvCAllOk).finalSelectedId =
      (loadTemplatesNextSelected (some 7) []).map (fun x => x.id) ∧
    handleUploadAndCreate sampleForm UploadMode.new none (some 7)
        { sampleEnvCAllOk with create := ApiResult.ok sampleTemplate } =
      handleUploadAndCreate sampleForm UploadMode.new none (some 7) sampleEnvCAllOk :=
  create_success_selection_rule sampleForm UploadMode.new none (some 7) sampleEnvCAllOk
    sampleTemplate sampleTemplate [] rfl rfl (by decide)

open SoftwareTemplatesPage in
/-- Counterexample to C1 as stated: opening the edit form of the template
named demo (the form is prefilled with the loaded record) and submitting
without changes sends an update body whose name field equals the name of
the previously loaded record. -/
theorem update_sends_unchanged_field_counterexample :
    (handleUploadAndUpdate ⟨"demo", "", ""⟩ UploadMode.new none
        (some ⟨7, "demo", "", 0, 1, "", ""⟩) (some 7)
        ⟨false, ApiResult.err "unused", ApiResult.err "unused", ApiResult.ok (),
         ApiResult.ok []⟩).updateCalled =
      some (7, ⟨some "demo", none, none⟩) ∧
    (⟨7, "demo", "", 0, 1, "", ""⟩ : SoftwareTemplate).name = "demo" := by
  constructor
  · decide
  · decide

open LlmManagementPage AgentManagementPage in
/-- C1 amended: the diff-before-send rule holds for the LLM provider
update, the LLM model update, and the name and agentType fields of the
agent update — a field present in those payloads never equals the
corresponding field of the previously loaded record.  (The
software-template update instead sends every non-blank field unchanged or
not, and the agent update compares description and instruction untrimmed
while sending them trimmed, so those may repeat the loaded value.) -/
theorem diff_before_send_non_template_forms
    (pf : ProviderForm) (p : LlmProvider) (mf : ModelForm) (pin pout : Option ℚ)
    (m : LlmModel) (af : AgentForm) (a : Agent) :
    (∀ v, (submitProviderEditPayload pf p).name = some v → v ≠ p.name) ∧
    (∀ v, (submitProviderEditPayload pf p).baseUrl = some v → v ≠ p.baseUrl) ∧
    (∀ v, (submitProviderEditPayload pf p).description = some v → v ≠ p.description) ∧
    (∀ payload, submitModelEditPayload mf pin pout m = some payload →
      (∀ v, payload.providerId = some v → v ≠ m.providerId) ∧
      (∀ v, payload.modelName = some v → v ≠ m.modelName) ∧
      (∀ v, payload.modelType = some v → v ≠ m.modelType) ∧
      (∀ v, payload.maxInputTokens = some v → v ≠ m.maxInputTokens) ∧
      (∀ v, payload.maxOutputTokens = some v → v ≠ m.maxOutputTokens) ∧
      (∀ v, payload.supportStream = some v → v ≠ m.supportStream) ∧
      (∀ v, payload.supportJson = some v → v ≠ m.supportJson) ∧
      (∀ v, payload.priceInputPer1k = some v → v ≠ m.priceInputPer1k) ∧
      (∀ v, payload.priceOutputPer1k = some v → v ≠ m.priceOutputPer1k)) ∧
    (∀ payload, submitAgentEditPayload af a = some payload →
      (∀ v, payload.name = some v → v ≠ a.name) ∧
      (∀ v, payload.agentType = some v → v ≠ a.agentType)) := by
  refine ⟨?_, ?_, ?_, ?_, ?_⟩
  · intro v hv
    simp only [submitProviderEditPayload] at hv
    split_ifs at hv with h
    injection hv with hv2
    subst hv2
    exact h.2
  · intro v hv
    simp only [submitProviderEditPayload] at hv
    split_ifs at hv with h
    injection hv with hv2
    subst hv2
    exact h
  · intro v hv
    simp only [submitProviderEditPayload] at hv
    split_ifs at hv with h
    injection hv with hv2
    subst hv2
    exact h
  · intro payload hp
    unfold submitModelEditPayload at hp
    rcases hjs : jsParseInt mf.providerId with _ | pid <;> rw [hjs] at hp <;>
      dsimp only at hp
    · exact Option.noConfusion hp
    · by_cases h1 : pid ≤ 0
      · rw [if_pos h1] at hp; exact Option.noConfusion hp
      · rw [if_neg h1] at hp
        by_cases h2 : jsTrim mf.modelName = ""
        · rw [if_pos h2] at hp; exact Option.noConfusion hp
        · rw [if_neg h2] at hp
          injection hp with hp2
          subst hp2
          refine ⟨?_, ?_, ?_, ?_, ?_, ?_, ?_, ?_, ?_⟩ <;>
            (intro v hv
             dsimp only at hv
             split_ifs at hv with h
             injection hv with hv2
             subst hv2
             exact h)
  · intro payload hp
    unfold submitAgentEditPayload at hp
    by_cases h1 : jsTrim af.name = ""
    · rw [if_pos h1] at hp; exact Option.noConfusion hp
    · rw [if_neg h1] at hp
      by_cases h2 : jsTrim af.agentType = ""
      · rw [if_pos h2] at hp; exact Option.noConfusion hp
      · rw [if_neg h2] at hp
        injection hp with hp2
        subst hp2
        constructor <;>
          (intro v hv
           dsimp only at hv
           split_ifs at hv with h
           injection hv with hv2
           subst hv2
           exact h.2)

/-- Witness for the amended C1: a provider form whose entered name differs
from the loaded record produces a payload naming exactly that new value,
and the theorem yields that it differs from the record name. -/
theorem diff_before_send_non_template_forms_witness :
    (LlmManagementPage.submitProviderEditPayload
        ⟨"n2", "https://b", "", "", false⟩
        ⟨1, "n1", "https://b", false, "", "", ""⟩).name = some "n2" ∧
    "n2" ≠ ("n1" : String) :=
  ⟨by decide,
   (diff_before_send_non_template_forms
      ⟨"n2", "https://b", "", "", false⟩ ⟨1, "n1", "https://b", false, "", "", ""⟩
      ⟨"1", "mm", "llm", "0", "0", false, false, "0", "0"⟩ none none
      ⟨1, 1, "mm", "llm", 0, 0, false, false, 0, 0, "", ""⟩
      ⟨"ag", "", "", "code"⟩ ⟨1, "ag", "", "", "code", ""⟩).1 "n2" (by decide)⟩

/-- Counterexample to C3 as stated: on the LLM management page a response
body whose JSON message field is the non-blank string a (and whose msg
field is the non-blank string b) is displayed as b, while the claimed
uniform three-tier fallback (message first, then msg) requires a. -/
theorem error_decoding_not_uniform_counterexample :
    LlmManagementPage.parseApiErrorMessage "\x7b\"message\":\"a\",\"msg\":\"b\"\x7d" = "b" ∧
    extractField "\x7b\"message\":\"a\",\"msg\":\"b\"\x7d" "message" = some "a" ∧
    ("b" : String) ≠ "a" :=
  ⟨by decide, by decide, by decide⟩

/-- C3 amended: every page maps an empty body to the fixed failure text;
otherwise a non-blank JSON string field wins, where the software-template,
login and agent pages prefer message over msg but the LLM management page
prefers msg over message; otherwise the trimmed body text is shown when it
is nonempty, else the fixed failure text.  The two concrete examples of
the claim hold on every page. -/
theorem error_decoding_three_tier_amended (text m n : String) :
    (SoftwareTemplatesPage.parseApiErrorMessage "" = "Request failed" ∧
     LoginPage.parseApiErrorMessage "" = "Request failed" ∧
     AgentManagementPage.parseApiErrorMessage "" = "Request failed" ∧
     LlmManagementPage.parseApiErrorMessage "" = "Request failed") ∧
    (text ≠ "" → extractField text "message" = some m → extractField text "msg" = none →
      SoftwareTemplatesPage.parseApiErrorMessage text = m ∧
      LoginPage.parseApiErrorMessage text = m ∧
      AgentManagementPage.parseApiErrorMessage text = m ∧
      LlmManagementPage.parseApiErrorMessage text = m) ∧
    (text ≠ "" → extractField text "message" = none → extractField text "msg" = some n →
      SoftwareTemplatesPage.parseApiErrorMessage text = n ∧
      LoginPage.parseApiErrorMessage text = n ∧
      AgentManagementPage.parseApiErrorMessage text = n ∧
      LlmManagementPage.parseApiErrorMessage text = n) ∧
    (text ≠ "" → extractField text "message" = some m → extractField text "msg" = some n →
      SoftwareTemplatesPage.parseApiErrorMessage text = m ∧
      LoginPage.parseApiErrorMessage text = m ∧
      AgentManagementPage.parseApiErrorMessage text = m ∧
      LlmManagementPage.parseApiErrorMessage text = n) ∧
    (text ≠ "" → extractField text "message" = none → extractField text "msg" = none →
      SoftwareTemplatesPage.parseApiErrorMessage text =
        (if jsTrim text = "" then "Request failed" else jsTrim text) ∧
      LoginPage.parseApiErrorMessage text =
        (if jsTrim text = "" then "Request failed" else jsTrim text) ∧
      AgentManagementPage.parseApiErrorMessage text =
        (if jsTrim text = "" then "Request failed" else jsTrim text) ∧
      LlmManagementPage.parseApiErrorMessage text =
        (if jsTrim text = "" then "Request failed" else jsTrim text)) ∧
    (SoftwareTemplatesPage.parseApiErrorMessage "\x7b\"message\":\"name required\"\x7d" = "name required" ∧
     LoginPage.parseApiErrorMessage "\x7b\"message\":\"name required\"\x7d" = "name required" ∧
     AgentManagementPage.parseApiErrorMessage "\x7b\"message\":\"name required\"\x7d" = "name required" ∧
     LlmManagementPage.parseApiErrorMessage "\x7b\"message\":\"name required\"\x7d" = "name required") := by
  refine ⟨⟨by decide, by decide, by decide, by decide⟩, ?_, ?_, ?_, ?_,
    ⟨by decide, by decide, by decide, by decide⟩⟩
  · intro ht hm hn
    unfold extractField at hm hn
    cases hj : jsonParse text with
    | none => rw [hj] at hm; exact absurd hm (by simp)
    | some j =>
      rw [hj] at hm hn
      dsimp only at hm hn
      refine ⟨?_, ?_, ?_, ?_⟩ <;>
        simp [SoftwareTemplatesPage.parseApiErrorMessage, LoginPage.parseApiErrorMessage,
          AgentManagementPage.parseApiErrorMessage, LlmManagementPage.parseApiErrorMessage,
          ht, hj, hm, hn]
  · intro ht hm hn
    unfold extractField at hm hn
    cases hj : jsonParse text with
    | none => rw [hj] at hn; exact absurd hn (by simp)
    | some j =>
      rw [hj] at hm hn
      dsimp only at hm hn
      refine ⟨?_, ?_, ?_, ?_⟩ <;>
        simp [SoftwareTemplatesPage.parseApiErrorMessage, LoginPage.parseApiErrorMessage,
          AgentManagementPage.parseApiErrorMessage, LlmManagementPage.parseApiErrorMessage,
          ht, hj, hm, hn]
  · intro ht hm hn
    unfold extractField at hm hn
    cases hj : jsonParse text with
    | none => rw [hj] at hm; exact absurd hm (by simp)
    | some j =>
      rw [hj] at hm hn
      dsimp only at hm hn
      refine ⟨?_, ?_, ?_, ?_⟩ <;>
        simp [SoftwareTemplatesPage.parseApiErrorMessage, LoginPage.parseApiErrorMessage,
          AgentManagementPage.parseApiErrorMessage, LlmManagementPage.parseApiErrorMessage,
          ht, hj, hm, hn]
  · intro ht hm hn
    unfold extractField at hm hn
    cases hj : jsonParse text with
    | none =>
      refine ⟨?_, ?_, ?_, ?_⟩ <;>
        simp [SoftwareTemplatesPage.parseApiErrorMessage, LoginPage.parseApiErrorMessage,
          AgentManagementPage.parseApiErrorMessage, LlmManagementPage.parseApiErrorMessage,
          ht, hj]
    | some j =>
      rw [hj] at hm hn
      dsimp only at hm hn
      refine ⟨?_, ?_, ?_, ?_⟩ <;>
        simp [SoftwareTemplatesPage.parseApiErrorMessage, LoginPage.parseApiErrorMessage,
          AgentManagementPage.parseApiErrorMessage, LlmManagementPage.parseApiErrorMessage,
          ht, hj, hm, hn]

/-- Witness for the amended C3: at the body carrying both fields the three
message-first pages display a and the LLM management page displays b. -/
theorem error_decoding_three_tier_amended_witness :
    SoftwareTemplatesPage.parseApiErrorMessage "\x7b\"message\":\"a\",\"msg\":\"b\"\x7d" = "a" ∧
    LoginPage.parseApiErrorMessage "\x7b\"message\":\"a\",\"msg\":\"b\"\x7d" = "a" ∧
    AgentManagementPage.parseApiErrorMessage "\x7b\"message\":\"a\",\"msg\":\"b\"\x7d" = "a" ∧
    LlmManagementPage.parseApiErrorMessage "\x7b\"message\":\"a\",\"msg\":\"b\"\x7d" = "b" :=
  (error_decoding_three_tier_amended "\x7b\"message\":\"a\",\"msg\":\"b\"\x7d" "a" "b").2.2.2.1
    (by decide) (by decide) (by decide)

end SparkxAdmin
